import Mathlib

/-!
Verification development for the gh-crawler repository.

Shallow embedding of the crawl-orchestration core:
* `PRCheckpointManager` — `src/pr_checkpoint_manager.py` (PRCrawlState and its
  transition functions `update_discovery_progress`, `update_scraping_progress`,
  `get_remaining_urls`).
* `AggressivePRScraper` — `src/aggressive_pr_scraper.py` (the unified-cache
  variants `_update_discovery_progress` / `_update_scraping_progress`, and the
  discovery loop `_discover_pr_urls_parallel`).
* `UnifiedCacheManager` — `src/unified_cache_manager.py` (write queue / flush,
  crawl-state JSON persistence, PR-commit mapping).
* `FailedIssueCache` — `src/failed_issue_cache.py` (circuit breaker).
* `EnhancedCrawler` — `src/enhanced_crawler.py` (quota predicate and retry loop).

Machine integers are modelled as `Nat`/`Int` (Python's ints are unbounded),
Python floats used for time stamps and the 0.9 quota factor are modelled as `ℚ`
(every literal involved, such as 0.9 = 9/10, is exactly representable and all
operations used are +, *, min and comparisons, which Python's binary floats
decide identically to ℚ on the integer-scaled inputs that occur here).
I/O (the checkpoint file and the JSONL cache) is modelled as explicit state:
a file-system map and a JSON value type mirroring what `json.dump`/`json.load`
preserve.
-/

namespace GhCrawler

/-! ## `pr_checkpoint_manager.PRCrawlState` and the unified variant

`RepositoryCrawlState` in `unified_cache_manager.py` extends `PRCrawlState`
with `commit_ids` and `pr_commit_mapping`.  Python dict keys surviving a JSON
round trip become strings, so the mapping key is modelled as a Python value
that is either an int or a string. -/

/-- A Python dict key as it can occur in `pr_commit_mapping`: written as an
`int` by `save_pr_commits`, read back as a `str` after a JSON round trip. -/
inductive PyKey where
  | int (n : Int)
  | str (s : String)
deriving Repr, DecidableEq

/-- `RepositoryCrawlState` from `unified_cache_manager.py` (the superset of
`pr_checkpoint_manager.PRCrawlState`; the two extra fields default to empty
via `__post_init__`). -/
structure PRCrawlState where
  repo_url : String
  total_prs_expected : Int
  discovered_pr_urls : List String
  scraped_pr_numbers : List Int
  failed_pr_urls : List String
  last_open_page : Int
  last_closed_page : Int
  open_pages_complete : Bool
  closed_pages_complete : Bool
  discovery_complete : Bool
  scraping_complete : Bool
  open_prs_found : Int := 0
  closed_prs_found : Int := 0
  commit_ids : List String := []
  pr_commit_mapping : List (PyKey × List String) := []
deriving Repr, DecidableEq

/-! ### Python string primitives

`str.split(sep)`, `str.replace(old, new)` and `int(s)` are modelled over
character lists (all separators/patterns used by the crawler are non-empty,
and the `int()` model covers an optional sign and decimal digits after
whitespace stripping — the inputs here are URL path segments). -/

/-- Recursion fuel sufficient to scan a character list once. -/
def strFuel (l : List Char) : Nat := l.length

/-- Scanner for `str.split(sep)`: emit the accumulator at each (non-empty)
separator occurrence, scanning left to right. -/
def splitOnCharsGo (sep : List Char) : Nat → List Char → List Char → List (List Char)
  | _, [], cur => [cur.reverse]
  | 0, rest, cur => [cur.reverse ++ rest]
  | fuel + 1, c :: rest, cur =>
      if sep.isPrefixOf (c :: rest) then
        cur.reverse :: splitOnCharsGo sep fuel ((c :: rest).drop sep.length) []
      else splitOnCharsGo sep fuel rest (c :: cur)

/-- Python `s.split(sep)` for non-empty `sep`. -/
def pySplit (s sep : String) : List String :=
  (splitOnCharsGo sep.data (strFuel s.data) s.data []).map fun cs => ⟨cs⟩

/-- Scanner for `str.replace(old, new)` with non-empty `old`. -/
def replaceCharsGo (pat sub : List Char) : Nat → List Char → List Char
  | _, [] => []
  | 0, rest => rest
  | fuel + 1, c :: rest =>
      if pat.isPrefixOf (c :: rest) then
        sub ++ replaceCharsGo pat sub fuel ((c :: rest).drop pat.length)
      else c :: replaceCharsGo pat sub fuel rest

/-- Python `s.replace(old, new)` for non-empty `old`. -/
def pyReplace (s pat sub : String) : String :=
  ⟨replaceCharsGo pat.data sub.data (strFuel s.data) s.data⟩

/-- The whitespace characters `int()` strips. -/
def isPySpace (c : Char) : Bool :=
  c = ' ' || c = '\t' || c = '\n' || c = '\r'

/-- Decimal digit value. -/
def digitVal (c : Char) : Option Nat :=
  if '0' ≤ c ∧ c ≤ '9' then some (c.toNat - '0'.toNat) else none

/-- Accumulate decimal digits; any non-digit fails. -/
def digitsToNatAux : Nat → List Char → Option Nat
  | acc, [] => some acc
  | acc, c :: rest =>
      match digitVal c with
      | none => none
      | some d => digitsToNatAux (acc * 10 + d) rest

/-- A non-empty all-digit run as a number. -/
def digitsToNat : List Char → Option Nat
  | [] => none
  | l => digitsToNatAux 0 l

/-- Python `int(s)` (`ValueError` → `none`): strip surrounding whitespace,
optional sign, decimal digits. -/
def pyInt (s : String) : Option Int :=
  let cs := s.data.dropWhile fun c => isPySpace c
  let cs := (cs.reverse.dropWhile fun c => isPySpace c).reverse
  match cs with
  | '-' :: ds => (digitsToNat ds).map fun n => -(n : Int)
  | '+' :: ds => (digitsToNat ds).map fun n => (n : Int)
  | ds => (digitsToNat ds).map fun n => (n : Int)

namespace PRCheckpointManager

/-- `create_initial_state` (`pr_checkpoint_manager.py`) /
`create_initial_crawl_state` (`unified_cache_manager.py`). -/
def create_initial_state (repo_url : String) (total_prs_expected : Int) : PRCrawlState :=
  { repo_url := repo_url
    total_prs_expected := total_prs_expected
    discovered_pr_urls := []
    scraped_pr_numbers := []
    failed_pr_urls := []
    last_open_page := 0
    last_closed_page := 0
    open_pages_complete := false
    closed_pages_complete := false
    discovery_complete := false
    scraping_complete := false }

/-- The URL-append loop of `update_discovery_progress`:
`for url in new_urls: if url not in existing_urls: append; add; new_count += 1`.
`existing_urls` always equals the set of elements of the current
`discovered_pr_urls`, so membership is checked against the accumulated list.
Returns the extended list together with `new_count`. -/
def addNewUrls : List String → List String → List String × Nat
  | acc, [] => (acc, 0)
  | acc, url :: rest =>
      if url ∈ acc then addNewUrls acc rest
      else
        let r := addNewUrls (acc ++ [url]) rest
        (r.1, r.2 + 1)

/-- `PRCheckpointManager.update_discovery_progress` (state mutation only; the
`save_state` call and logging have no effect on the state fields). -/
def update_discovery_progress (state : PRCrawlState) (pr_type : String) (page : Int)
    (new_urls : List String) (pages_complete : Bool) : PRCrawlState :=
  let r := addNewUrls state.discovered_pr_urls new_urls
  let state :=
    { state with discovered_pr_urls := r.1 }
  let state :=
    if pr_type = "open" then
      { state with
        last_open_page := page
        open_pages_complete := pages_complete
        open_prs_found := state.open_prs_found + r.2 }
    else
      { state with
        last_closed_page := page
        closed_pages_complete := pages_complete
        closed_prs_found := state.closed_prs_found + r.2 }
  { state with
    discovery_complete := state.open_pages_complete && state.closed_pages_complete }

/-- `PRCheckpointManager.update_scraping_progress` (state mutation only).
`pr_url` is `None` or a string; a failure with `pr_url=None` records nothing. -/
def update_scraping_progress (state : PRCrawlState) (pr_number : Int) (success : Bool)
    (pr_url : Option String := none) : PRCrawlState :=
  let state :=
    if success then
      if pr_number ∈ state.scraped_pr_numbers then state
      else { state with scraped_pr_numbers := state.scraped_pr_numbers ++ [pr_number] }
    else
      match pr_url with
      | none => state
      | some url =>
          if url ∈ state.failed_pr_urls then state
          else { state with failed_pr_urls := state.failed_pr_urls ++ [url] }
  let total_discovered := state.discovered_pr_urls.length
  let total_processed := state.scraped_pr_numbers.length + state.failed_pr_urls.length
  { state with
    scraping_complete := decide (0 < total_discovered) && decide (total_processed ≥ total_discovered) }

/-- `int(url.split('/pull/')[-1])`: the PR number derived from a URL, `none`
when the trailing component is not a literal integer (Python `int` raises). -/
def derivedPrNumber (url : String) : Option Int :=
  match (pySplit url "/pull/").getLast? with
  | none => none
  | some s => pyInt s

/-- `PRCheckpointManager.get_remaining_urls` (identical logic is inlined as
`AggressivePRScraper._get_remaining_urls` for the unified-cache path). -/
def get_remaining_urls (state : PRCrawlState) : List String :=
  state.discovered_pr_urls.filter fun url =>
    if url ∈ state.failed_pr_urls then false
    else
      match derivedPrNumber url with
      | some n => decide (n ∉ state.scraped_pr_numbers)
      | none => true

end PRCheckpointManager

namespace AggressivePRScraper

/-- `AggressivePRScraper._update_discovery_progress`, unified-cache branch:
updates the page cursor, raises the completeness flag when `is_complete`, and
appends URLs not already present.  It does **not** touch
`open_prs_found`/`closed_prs_found` and does not recompute
`discovery_complete`. -/
def updateDiscoveryProgressUnified (state : PRCrawlState) (pr_state : String) (page_num : Int)
    (page_urls : List String) (is_complete : Bool) : PRCrawlState :=
  let state :=
    if pr_state = "open" then
      { state with
        last_open_page := page_num
        open_pages_complete := is_complete || state.open_pages_complete }
    else
      { state with
        last_closed_page := page_num
        closed_pages_complete := is_complete || state.closed_pages_complete }
  { state with
    discovered_pr_urls :=
      page_urls.foldl
        (fun acc url => if url ∈ acc then acc else acc ++ [url])
        state.discovered_pr_urls }

/-- `AggressivePRScraper._update_scraping_progress`, unified-cache branch:
same set updates as the checkpoint manager but without recomputing
`scraping_complete`. -/
def updateScrapingProgressUnified (state : PRCrawlState) (pr_number : Int) (success : Bool)
    (pr_url : Option String := none) : PRCrawlState :=
  if success then
    if pr_number ∈ state.scraped_pr_numbers then state
    else { state with scraped_pr_numbers := state.scraped_pr_numbers ++ [pr_number] }
  else
    match pr_url with
    | none => state
    | some url =>
        if url ∈ state.failed_pr_urls then state
        else { state with failed_pr_urls := state.failed_pr_urls ++ [url] }

end AggressivePRScraper

/-! ## JSON snapshot persistence (`unified_cache_manager.py`)

`save_crawl_state` runs `json.dump(asdict(state), open(file, 'w'))` and
`load_crawl_state` runs `RepositoryCrawlState.from_dict(json.load(open(file)))`
inside a `try/except` returning `None`.  The JSON value type below captures
exactly what CPython's `json` preserves: object keys are strings (`json.dump`
stringifies an `int` dict key via `str()`; `json.load` always yields `str`
keys), ints round-trip exactly, and lists/bools/strings round-trip exactly. -/

/-- A JSON value as produced by `json.dump` / consumed by `json.load`. -/
inductive JValue where
  | null
  | bool (b : Bool)
  | num (n : Int)
  | str (s : String)
  | arr (xs : List JValue)
  | obj (fields : List (String × JValue))

/-- `str()` applied to a dict key by `json.dump` (int keys are stringified;
string keys pass through). -/
def pyKeyToString : PyKey → String
  | .int n => toString n
  | .str s => s

namespace UnifiedCacheManager

/-- `json.dump(asdict(state), ...)`: the serialized form of a
`RepositoryCrawlState`, fields in dataclass order.  The `pr_commit_mapping`
dict is emitted as a JSON object, so its keys go through `str()`. -/
def encodeState (s : PRCrawlState) : JValue :=
  .obj
    [ ("repo_url", .str s.repo_url)
    , ("total_prs_expected", .num s.total_prs_expected)
    , ("discovered_pr_urls", .arr (s.discovered_pr_urls.map .str))
    , ("scraped_pr_numbers", .arr (s.scraped_pr_numbers.map .num))
    , ("failed_pr_urls", .arr (s.failed_pr_urls.map .str))
    , ("last_open_page", .num s.last_open_page)
    , ("last_closed_page", .num s.last_closed_page)
    , ("open_pages_complete", .bool s.open_pages_complete)
    , ("closed_pages_complete", .bool s.closed_pages_complete)
    , ("discovery_complete", .bool s.discovery_complete)
    , ("scraping_complete", .bool s.scraping_complete)
    , ("open_prs_found", .num s.open_prs_found)
    , ("closed_prs_found", .num s.closed_prs_found)
    , ("commit_ids", .arr (s.commit_ids.map .str))
    , ("pr_commit_mapping",
        .obj (s.pr_commit_mapping.map fun kv =>
          (pyKeyToString kv.1, .arr (kv.2.map .str)))) ]

/-- Read a JSON string. -/
def asStr : JValue → Option String
  | .str s => some s
  | _ => none

/-- Read a JSON integer. -/
def asNum : JValue → Option Int
  | .num n => some n
  | _ => none

/-- Read a JSON boolean. -/
def asBool : JValue → Option Bool
  | .bool b => some b
  | _ => none

/-- Read a JSON array of strings. -/
def asStrList : JValue → Option (List String)
  | .arr xs => xs.mapM asStr
  | _ => none

/-- Read a JSON array of integers. -/
def asNumList : JValue → Option (List Int)
  | .arr xs => xs.mapM asNum
  | _ => none

/-- Read the `pr_commit_mapping` JSON object.  After `json.load` every key is
a `str`, which is what `from_dict` hands to the constructor unchanged. -/
def asMapping : JValue → Option (List (PyKey × List String))
  | .obj fields => fields.mapM fun kv => do
      let v ← asStrList kv.2
      pure (PyKey.str kv.1, v)
  | _ => none

/-- The field names `RepositoryCrawlState(**data)` accepts; any other key
raises `TypeError` (caught by `load_crawl_state`, which then returns `None`). -/
def stateKeys : List String :=
  [ "repo_url", "total_prs_expected", "discovered_pr_urls", "scraped_pr_numbers"
  , "failed_pr_urls", "last_open_page", "last_closed_page", "open_pages_complete"
  , "closed_pages_complete", "discovery_complete", "scraping_complete"
  , "open_prs_found", "closed_prs_found", "commit_ids", "pr_commit_mapping" ]

/-- Fetch a required string field (`KeyError`/`TypeError` → `none`). -/
def fieldStr (fields : List (String × JValue)) (k : String) : Option String :=
  (fields.lookup k).bind asStr

/-- Fetch a required integer field. -/
def fieldNum (fields : List (String × JValue)) (k : String) : Option Int :=
  (fields.lookup k).bind asNum

/-- Fetch a required boolean field. -/
def fieldBool (fields : List (String × JValue)) (k : String) : Option Bool :=
  (fields.lookup k).bind asBool

/-- Fetch a required string-list field. -/
def fieldStrList (fields : List (String × JValue)) (k : String) : Option (List String) :=
  (fields.lookup k).bind asStrList

/-- Fetch a required integer-list field. -/
def fieldNumList (fields : List (String × JValue)) (k : String) : Option (List Int) :=
  (fields.lookup k).bind asNumList

/-- Fetch an integer field, defaulting when absent (`from_dict`'s
backward-compatibility fill-in). -/
def fieldNumD (fields : List (String × JValue)) (k : String) (d : Int) : Option Int :=
  match fields.lookup k with
  | none => some d
  | some v => asNum v

/-- Fetch a string-list field, defaulting to `[]` when absent. -/
def fieldStrListD (fields : List (String × JValue)) (k : String) : Option (List String) :=
  match fields.lookup k with
  | none => some []
  | some v => asStrList v

/-- Fetch the `pr_commit_mapping` field, defaulting to `{}` when absent. -/
def fieldMappingD (fields : List (String × JValue)) (k : String) :
    Option (List (PyKey × List String)) :=
  match fields.lookup k with
  | none => some []
  | some v => asMapping v

/-- The identity/progress half of the constructor arguments of `cls(**data)`:
`repo_url`, `total_prs_expected`, the three URL/number lists. -/
def decodeIdFields (fields : List (String × JValue)) :
    Option (String × Int × List String × List Int × List String) := do
  let repo_url ← fieldStr fields "repo_url"
  let total_prs_expected ← fieldNum fields "total_prs_expected"
  let discovered_pr_urls ← fieldStrList fields "discovered_pr_urls"
  let scraped_pr_numbers ← fieldNumList fields "scraped_pr_numbers"
  let failed_pr_urls ← fieldStrList fields "failed_pr_urls"
  pure (repo_url, total_prs_expected, discovered_pr_urls, scraped_pr_numbers, failed_pr_urls)

/-- The pagination/flag half of the constructor arguments of `cls(**data)`. -/
def decodePageFields (fields : List (String × JValue)) :
    Option (Int × Int × Bool × Bool × Bool × Bool) := do
  let last_open_page ← fieldNum fields "last_open_page"
  let last_closed_page ← fieldNum fields "last_closed_page"
  let open_pages_complete ← fieldBool fields "open_pages_complete"
  let closed_pages_complete ← fieldBool fields "closed_pages_complete"
  let discovery_complete ← fieldBool fields "discovery_complete"
  let scraping_complete ← fieldBool fields "scraping_complete"
  pure (last_open_page, last_closed_page, open_pages_complete, closed_pages_complete,
    discovery_complete, scraping_complete)

/-- The four fields `from_dict` backfills with defaults when absent. -/
def decodeCompatFields (fields : List (String × JValue)) :
    Option (Int × Int × List String × List (PyKey × List String)) := do
  let open_prs_found ← fieldNumD fields "open_prs_found" 0
  let closed_prs_found ← fieldNumD fields "closed_prs_found" 0
  let commit_ids ← fieldStrListD fields "commit_ids"
  let pr_commit_mapping ← fieldMappingD fields "pr_commit_mapping"
  pure (open_prs_found, closed_prs_found, commit_ids, pr_commit_mapping)

/-- `RepositoryCrawlState.from_dict`: supplies defaults for the four
backward-compatibility fields, then calls `cls(**data)`; a missing required
field or an unknown key raises `TypeError` (→ `none`).  `cls(**data)` does
not type-check field values at runtime; the typed readers here additionally
reject ill-typed fields, which only narrows the domain on JSON documents the
crawler itself never writes (every theorem below decodes either an encoder
output or an absent/corrupt file). -/
def decodeState : JValue → Option PRCrawlState
  | .obj fields => do
      guard (fields.all fun kv => stateKeys.contains kv.1)
      let (repo_url, total_prs_expected, discovered_pr_urls, scraped_pr_numbers,
        failed_pr_urls) ← decodeIdFields fields
      let (last_open_page, last_closed_page, open_pages_complete, closed_pages_complete,
        discovery_complete, scraping_complete) ← decodePageFields fields
      let (open_prs_found, closed_prs_found, commit_ids, pr_commit_mapping) ←
        decodeCompatFields fields
      pure (PRCrawlState.mk repo_url total_prs_expected discovered_pr_urls
        scraped_pr_numbers failed_pr_urls last_open_page last_closed_page
        open_pages_complete closed_pages_complete discovery_complete
        scraping_complete open_prs_found closed_prs_found commit_ids
        pr_commit_mapping)
  | _ => none

/-- What a reader can find at a path: no file, bytes `json.load` rejects
(e.g. the empty file right after `open(path, 'w')` truncated it, or a
half-written dump), or a parseable JSON document. -/
inductive FileContent where
  | absent
  | corrupt
  | valid (j : JValue)

/-- The file system, as a map from path to content. -/
def FS : Type := String → FileContent

/-- `_get_safe_repo_name`:
`repo_url.replace("https://", "").replace("/", "_")`. -/
def safeRepoName (repo_url : String) : String :=
  pyReplace (pyReplace repo_url "https://" "") "/" "_"

/-- `get_checkpoint_file` (under `cache/checkpoints/`). -/
def checkpointPath (repo_url : String) : String :=
  "cache/checkpoints/" ++ safeRepoName repo_url ++ "_state.json"

/-- `save_crawl_state` writes the target file **in place**:
`open(checkpoint_file, 'w')` truncates it immediately, then `json.dump`
fills it.  The observable file-system sequence therefore passes through a
truncated (unparseable) intermediate before the final content appears. -/
def save_crawl_state_trace (fs : FS) (state : PRCrawlState) : List FS :=
  let path := checkpointPath state.repo_url
  [ fun p => if p = path then .corrupt else fs p
  , fun p => if p = path then .valid (encodeState state) else fs p ]

/-- The file system after `save_crawl_state` returns. -/
def save_crawl_state (fs : FS) (state : PRCrawlState) : FS :=
  fun p => if p = checkpointPath state.repo_url then .valid (encodeState state) else fs p

/-- `load_crawl_state`: `None` when the file does not exist; any exception
from `json.load` or `from_dict` is caught and yields `None`. -/
def load_crawl_state (fs : FS) (repo_url : String) : Option PRCrawlState :=
  match fs (checkpointPath repo_url) with
  | .absent => none
  | .corrupt => none
  | .valid j => decodeState j

/-- Python dict assignment `d[k] = v` on an association list: replace the
value of an existing key in place, otherwise append the new entry. -/
def dictInsert (m : List (PyKey × List String)) (k : PyKey) (v : List String) :
    List (PyKey × List String) :=
  if m.any fun kv => kv.1 = k then
    m.map fun kv => if kv.1 = k then (k, v) else kv
  else m ++ [(k, v)]

/-- `save_pr_commits`: load the state, set `pr_commit_mapping[pr_number]`
(an **int** key), save the state; a missing state is a no-op (warning). -/
def save_pr_commits (fs : FS) (repo_url : String) (pr_number : Int)
    (commit_ids : List String) : FS :=
  match load_crawl_state fs repo_url with
  | none => fs
  | some state =>
      save_crawl_state fs
        { state with
          pr_commit_mapping := dictInsert state.pr_commit_mapping (.int pr_number) commit_ids }

/-- `get_pr_commits`: `state.pr_commit_mapping.get(pr_number, [])` — the
lookup key is the **int** `pr_number`. -/
def get_pr_commits (fs : FS) (repo_url : String) (pr_number : Int) : List String :=
  match load_crawl_state fs repo_url with
  | none => []
  | some state =>
      match state.pr_commit_mapping.lookup (.int pr_number) with
      | some ids => ids
      | none => []

end UnifiedCacheManager

/-! ## Data models (`models.py`) -/

/-- `PullRequestInfo`.  Only the fields the orchestration core reads are
carried (`number`, `state`, `url`); the remaining fields (title, author,
timestamps, tags, comments, related issues, commit references) are opaque
payload never inspected by the control flow under verification. -/
structure PullRequestInfo where
  number : Int
  state : String
  url : String := ""
deriving Repr, DecidableEq

/-- `RepositoryStats`.  `pr_counts_available` is set dynamically by
`repository_scraper.scrape_repository_stats` (absent from the dataclass, read
via `getattr(stats, 'pr_counts_available', False)`). -/
structure RepositoryStats where
  contributors_count : Int := 0
  forks_count : Int := 0
  total_issues : Int := 0
  open_issues : Int := 0
  closed_issues : Int := 0
  total_pull_requests : Int := 0
  open_pull_requests : Int := 0
  closed_pull_requests : Int := 0
  pr_counts_available : Bool := false
deriving Repr, DecidableEq

/-- `CrawledRepository`. -/
structure CrawledRepository where
  url : String
  stars : Int
  language : List String
  stats : RepositoryStats
  pull_requests : List PullRequestInfo := []
  commit_ids : List String := []
  crawl_timestamp : Option String := none
  crawl_success : Bool := true
  error_message : Option String := none
deriving Repr, DecidableEq

/-- `CrawlResult`. -/
structure CrawlResult where
  success : Bool
  repository : Option CrawledRepository := none
  error : Option String := none
  retry_count : Int := 0
deriving Repr, DecidableEq

/-! ## The PR write queue (`unified_cache_manager.py`)

`cache_pr_immediately` appends to `self.write_queue` under `self.write_lock`
and flushes synchronously once the queue reaches `self.batch_size`;
`_flush_queue` groups the queue by repository and appends each group to that
repository's JSONL file.  All queue operations run under the single
`write_lock`, so the sequential model below covers every interleaving. -/

namespace UnifiedCacheManager

/-- `get_pr_cache_file` (under `cache/prs/`). -/
def prCachePath (repo_url : String) : String :=
  "cache/prs/" ++ safeRepoName repo_url ++ "_prs.jsonl"

/-- The in-memory queue plus the durable JSONL logs.  `files` maps a cache
file path to the parsed records its lines hold, in file order (the batch size
mirrors `self.batch_size = CACHE_FLUSH_BATCH_SIZE`). -/
structure CacheState where
  batch_size : Nat
  write_queue : List (String × PullRequestInfo)
  files : String → List PullRequestInfo

/-- `_flush_queue`: empty queue → no-op; otherwise group the queued pairs by
repository (insertion order) and append each repository's PRs, in queue
order, to that repository's file, then clear the queue.  Per file this equals
appending exactly the queue entries whose cache path is that file. -/
def flushQueue (st : CacheState) : CacheState :=
  if st.write_queue.isEmpty then st
  else
    { st with
      write_queue := []
      files := fun path =>
        st.files path ++ (st.write_queue.filter fun e => prCachePath e.1 = path).map (·.2) }

/-- `cache_pr_immediately`: append to the queue, then flush when
`len(self.write_queue) >= self.batch_size`. -/
def cache_pr_immediately (st : CacheState) (repo_url : String) (pr_info : PullRequestInfo) :
    CacheState :=
  let st := { st with write_queue := st.write_queue ++ [(repo_url, pr_info)] }
  if st.write_queue.length ≥ st.batch_size then flushQueue st else st

/-- `flush_cache` (public wrapper around `_flush_queue` under the lock). -/
def flush_cache (st : CacheState) : CacheState := flushQueue st

/-- `load_cached_prs`: a full scan of the repository's JSONL file, in file
order (a missing file yields `[]`; malformed lines are skipped, the model
stores the parseable records). -/
def load_cached_prs (st : CacheState) (repo_url : String) : List PullRequestInfo :=
  st.files (prCachePath repo_url)

end UnifiedCacheManager

/-! ## Circuit breaker (`failed_issue_cache.py`) -/

namespace FailedIssueCacheM

/-- The in-memory state of `FailedIssueCache`.  `failure_counts` models the
dict with `.get(url, 0)` reads as a total map defaulting to 0; `blocked_until`
keeps the dict's key-presence (`none` = key absent).  Timestamps
(`time.time()` floats) are rationals.  `failure_threshold` (10) and
`block_timeout` (300) are set in `__init__`. -/
structure FailedIssueCache where
  failed_issues : String → List Int
  failure_counts : String → Nat
  blocked_until : String → Option ℚ
  failure_threshold : Nat
  block_timeout : ℚ

/-- The state `__init__` builds when no cache file exists. -/
def initCache : FailedIssueCache :=
  { failed_issues := fun _ => []
    failure_counts := fun _ => 0
    blocked_until := fun _ => none
    failure_threshold := 10
    block_timeout := 300 }

/-- `mark_failed(repo_url, issue_number)` at time `now`: add the issue to the
repository's failed set, bump the failure counter, and set
`blocked_until[repo_url] = now + block_timeout` once the counter reaches
`failure_threshold` (the periodic `_save_cache` does not change the state). -/
def mark_failed (c : FailedIssueCache) (now : ℚ) (repo_url : String) (issue_number : Int) :
    FailedIssueCache :=
  let fi := c.failed_issues repo_url
  let fi' := if issue_number ∈ fi then fi else fi ++ [issue_number]
  let cnt := c.failure_counts repo_url + 1
  let c :=
    { c with
      failed_issues := fun r => if r = repo_url then fi' else c.failed_issues r
      failure_counts := fun r => if r = repo_url then cnt else c.failure_counts r }
  if cnt ≥ c.failure_threshold then
    { c with
      blocked_until := fun r =>
        if r = repo_url then some (now + c.block_timeout) else c.blocked_until r }
  else c

/-- `mark_success(repo_url)`: reset the counter and delete the block. -/
def mark_success (c : FailedIssueCache) (repo_url : String) : FailedIssueCache :=
  { c with
    failure_counts := fun r => if r = repo_url then 0 else c.failure_counts r
    blocked_until := fun r => if r = repo_url then none else c.blocked_until r }

/-- `should_attempt_repo(repo_url)` at time `now`: `False` while
`now < blocked_until[repo_url]`; an expired block is deleted and the counter
reset before returning `True`. -/
def should_attempt_repo (c : FailedIssueCache) (now : ℚ) (repo_url : String) :
    Bool × FailedIssueCache :=
  match c.blocked_until repo_url with
  | some t =>
      if now < t then (false, c)
      else
        (true,
          { c with
            blocked_until := fun r => if r = repo_url then none else c.blocked_until r
            failure_counts := fun r => if r = repo_url then 0 else c.failure_counts r })
  | none => (true, c)

/-- Folding a list of `(time, issue_number)` failures for one repository
through `mark_failed`. -/
def markFailures (c : FailedIssueCache) (repo_url : String) :
    List (ℚ × Int) → FailedIssueCache
  | [] => c
  | (t, i) :: rest => markFailures (mark_failed c t repo_url i) repo_url rest

end FailedIssueCacheM

/-! ## Quota enforcement (`enhanced_crawler.py` and `config.py`) -/

/-- An exact fraction with positive denominator, the value of a Python float
expression.  The float expressions of the quota logic (`target * 0.9` and
`required_threshold - closed`, with integer operands in the crawler's range)
are decided by binary floating point exactly as by real arithmetic, so an
exact fraction carries their value (ℚ itself is avoided only because its
normalizing arithmetic does not reduce in the kernel). -/
structure Frac where
  num : Int
  den : Int
deriving Repr, DecidableEq

/-- Embed an integer. -/
def Frac.ofInt (n : Int) : Frac := ⟨n, 1⟩

/-- Exact product. -/
def Frac.mul (a b : Frac) : Frac := ⟨a.num * b.num, a.den * b.den⟩

/-- Exact difference. -/
def Frac.sub (a b : Frac) : Frac := ⟨a.num * b.den - b.num * a.den, a.den * b.den⟩

/-- Comparison `a ≤ b` by cross-multiplication (positive denominators). -/
def Frac.leB (a b : Frac) : Bool := decide (a.num * b.den ≤ b.num * a.den)

/-- Floor of the value (positive denominator): `Int.fdiv` is floor
division. -/
def Frac.floor (a : Frac) : Int := Int.fdiv a.num a.den

/-- The rational value of a fraction. -/
def Frac.toRat (a : Frac) : ℚ := (a.num : ℚ) / (a.den : ℚ)

namespace EnhancedCrawler

/-- `config.MIN_PRS_REQUIRED`. -/
def MIN_PRS_REQUIRED : Int := 500

/-- `config.CRAWL_CLOSED_PRS`. -/
def CRAWL_CLOSED_PRS : Bool := true

/-- `len([pr for pr in repository.pull_requests if pr.state in ['closed', 'merged']])`. -/
def closedPrsScraped (repository : CrawledRepository) : Nat :=
  (repository.pull_requests.filter fun pr => pr.state = "closed" || pr.state = "merged").length

/-- `target_closed_prs * 0.9` as an exact fraction. -/
def requiredThreshold (target_closed_prs : Int) : Frac :=
  (Frac.ofInt target_closed_prs).mul ⟨9, 10⟩

/-- `_meets_minimum_pr_requirement`, with the `config.MIN_PRS_REQUIRED`
module constant passed explicitly (it is a configuration input; the
repository's value is 500): `closed_prs_scraped >= target_closed_prs * 0.9`
for `target_closed_prs = min(MIN_PRS_REQUIRED, stats.closed_pull_requests)`. -/
def meets_minimum_pr_requirement (min_prs_required : Int)
    (repository : CrawledRepository) : Bool :=
  let closed_prs_scraped : Int := closedPrsScraped repository
  let target_closed_prs : Int := min min_prs_required repository.stats.closed_pull_requests
  (requiredThreshold target_closed_prs).leB (Frac.ofInt closed_prs_scraped)

/-- The early-return ladder of `_crawl_single_repository` (lines 167–207)
that runs **before** any scraping: cached repository failure, stats-fetch
failure, unavailable PR counts, and the confirmed-zero-closed-PRs skip.
Returns `some result` for an early return, `none` when crawling proceeds. -/
def crawl_single_repository_gate (cached_failure : Option String)
    (stats : Option RepositoryStats) : Option CrawlResult :=
  match cached_failure with
  | some reason => some { success := false, error := some ("Cached failure: " ++ reason) }
  | none =>
      match stats with
      | none => some { success := false, error := some "Failed to scrape repository stats" }
      | some st =>
          if CRAWL_CLOSED_PRS && !st.pr_counts_available then
            some { success := false, error := some "Failed to fetch PR counts" }
          else if CRAWL_CLOSED_PRS && st.pr_counts_available && st.closed_pull_requests == 0 then
            some { success := false, error := some "No closed PRs available" }
          else none

/-- Why `_continue_scraping_until_requirement_met`'s loop ended. -/
inductive RetryExit where
  | metRequirement
  | neededZero
  | zeroNewPrs
  | ceiling
deriving Repr, DecidableEq

/-- Observable outcome of `_continue_scraping_until_requirement_met`:
the returned `CrawlResult`, the number of scraper invocations performed, the
per-invocation counts of new (non-duplicate) PRs, and the exit condition. -/
structure RetryOutcome where
  result : CrawlResult
  attemptsUsed : Nat
  newCounts : List Nat
  exit : RetryExit
deriving Repr, DecidableEq

/-- `max_retry_attempts` in `_continue_scraping_until_requirement_met`. -/
def maxRetryAttempts : Nat := 5

/-- `new_prs = [pr for pr in additional_prs if pr.number not in existing_pr_numbers]`. -/
def filterNewPrs (working : CrawledRepository) (additional_prs : List PullRequestInfo) :
    List PullRequestInfo :=
  additional_prs.filter fun pr => working.pull_requests.all fun q => q.number ≠ pr.number

/-- `prs_needed = max(0, int(required_threshold - closed_prs_scraped))`.
Python `int()` truncates toward zero; composed with `max 0` this equals
`max 0 ⌊·⌋` (truncation and floor agree on non-negative values, and negative
values are clamped either way). -/
def prsNeeded (required_threshold : Frac) (closed_prs_scraped : Nat) : Int :=
  max 0 (required_threshold.sub (Frac.ofInt closed_prs_scraped)).floor

/-- The `working_repository = CrawledRepository(...)` rebuild in the retry
loop: same identity fields, extended PR list, `crawl_success=True`. -/
def mergeWorking (working : CrawledRepository) (new_prs : List PullRequestInfo) :
    CrawledRepository :=
  { working with
    pull_requests := working.pull_requests ++ new_prs
    crawl_success := true }

/-- One pass structure of the `while retry_attempt < max_retry_attempts`
loop of `_continue_scraping_until_requirement_met`.  `scraper k` stands for
the list of PRs the `AggressivePRScraper` invocation of attempt `k` returns
(the external fetch collaborator).  `retry_attempt` is the value **after**
the `retry_attempt += 1` at the top of the iteration.  The source computes
`target_closed_prs`/`required_threshold` once before the loop from
`current_repository.stats`; the recomputation here is identical because the
loop's repository rebuild copies `stats` unchanged. -/
def continueScrapingGo (scraper : Nat → List PullRequestInfo) (min_prs_required : Int)
    (fuel : Nat) (retry_attempt : Nat) (working : CrawledRepository) (newCounts : List Nat) :
    RetryOutcome :=
  match fuel with
  | 0 =>
      { result := { success := true, repository := some working }
        attemptsUsed := newCounts.length
        newCounts := newCounts
        exit := .ceiling }
  | fuel + 1 =>
      let retry := retry_attempt + 1
      let closed := closedPrsScraped working
      let target : Int := min min_prs_required working.stats.closed_pull_requests
      let needed := prsNeeded (requiredThreshold target) closed
      if meets_minimum_pr_requirement min_prs_required working then
        { result := { success := true, repository := some working }
          attemptsUsed := newCounts.length
          newCounts := newCounts
          exit := .metRequirement }
      else if needed == 0 then
        { result := { success := true, repository := some working }
          attemptsUsed := newCounts.length
          newCounts := newCounts
          exit := .neededZero }
      else
        let additional_prs := scraper retry
        let new_prs := filterNewPrs working additional_prs
        let newCounts := newCounts ++ [new_prs.length]
        if new_prs.length == 0 && decide (retry ≥ 2) then
          { result := { success := true, repository := some working }
            attemptsUsed := newCounts.length
            newCounts := newCounts
            exit := .zeroNewPrs }
        else
          continueScrapingGo scraper min_prs_required fuel retry
            (mergeWorking working new_prs) newCounts

/-- `_continue_scraping_until_requirement_met` (the non-exception path):
whatever ends the loop, the function returns
`CrawlResult(success=True, repository=working_repository)` — the final
`if/else` emits the best-effort repository in both branches. -/
def continue_scraping_until_requirement_met (scraper : Nat → List PullRequestInfo)
    (min_prs_required : Int) (current_repository : CrawledRepository) : RetryOutcome :=
  continueScrapingGo scraper min_prs_required maxRetryAttempts 0 current_repository []

end EnhancedCrawler

/-! ## Parallel URL discovery (`aggressive_pr_scraper._discover_pr_urls_parallel`)

The loop walks pages in batches.  The page fetches themselves are external
(the HTTP/extraction collaborators), so each page's outcome is an input:
`future.result(timeout=10)` either returns a URL list (`_fetch_page_urls`
swallows its own exceptions and returns `[]`) or raises, and the raised
text may or may not carry the rate-limit marker `"429"`.  Batch results are
applied in submission order (increasing page number).  Which
`_update_discovery_progress` branch runs depends on whether the scraper was
built with the unified cache manager or the legacy checkpoint manager. -/

namespace AggressivePRScraper

/-- Outcome of one page future, as seen by the discovery loop. -/
inductive PageOutcome where
  | urls (us : List String)
  | exc (isRateLimit : Bool)
deriving Repr, DecidableEq

/-- Does `future.exception()` carry the `"429"` marker? -/
def PageOutcome.isRateLimitExc : PageOutcome → Bool
  | .exc true => true
  | _ => false

/-- Which manager backs `_update_discovery_progress`/`_save_state`. -/
inductive UpdateMode where
  | unified
  | checkpoint
deriving Repr, DecidableEq

/-- Dispatch of `self._update_discovery_progress`. -/
def updateDiscovery (mode : UpdateMode) (st : PRCrawlState) (pr_state : String)
    (page_num : Int) (us : List String) (is_complete : Bool) : PRCrawlState :=
  match mode with
  | .unified => updateDiscoveryProgressUnified st pr_state page_num us is_complete
  | .checkpoint => PRCheckpointManager.update_discovery_progress st pr_state page_num us is_complete

/-- `getattr(state, f'...prs_found', 0)`. -/
def readFoundCounter (st : PRCrawlState) (pr_state : String) : Int :=
  if pr_state = "open" then st.open_prs_found
  else if pr_state = "closed" then st.closed_prs_found
  else 0

/-- Python truthiness of `limit` in `if limit and ...`: `None` and `0` are
falsy. -/
def capValue (limit : Option Int) : Option Int :=
  match limit with
  | none => none
  | some l => if l = 0 then none else some l

/-- `max_pages` in `_discover_pr_urls_parallel`. -/
def maxPages : Int := 500

/-- `max_consecutive_empty`. -/
def maxConsecutiveEmpty : Nat := 3

/-- `max_backoff`. -/
def maxBackoff : Nat := 60

/-- The mutable locals of the per-batch result loop
(`for page_num, future in futures`). -/
structure BatchAcc where
  st : PRCrawlState
  total_found : Int
  consecutive_empty : Nat
  consecutive_failures : Nat
  backoff_delay : Nat
  batch_found : Nat
  batch_failures : Nat
  batch_empty_pages : Nat
deriving Repr, DecidableEq

/-- The `for page_num, future in futures` body.  Returns the updated locals
and whether the mid-batch `return` fired (cap reached immediately after an
update).  A `break` (no remaining slots) stops the iteration without the
early-return flag. -/
def processBatchItems (mode : UpdateMode) (pr_state : String) (limit : Option Int) :
    BatchAcc → List (Int × PageOutcome) → BatchAcc × Bool
  | acc, [] => (acc, false)
  | acc, (page_num, outcome) :: rest =>
      match outcome with
      | .exc rl =>
          let acc := { acc with batch_failures := acc.batch_failures + 1 }
          let acc :=
            if rl then { acc with consecutive_failures := acc.consecutive_failures + 1 }
            else { acc with batch_empty_pages := acc.batch_empty_pages + 1 }
          processBatchItems mode pr_state limit acc rest
      | .urls us =>
          if us.isEmpty then
            processBatchItems mode pr_state limit
              { acc with batch_empty_pages := acc.batch_empty_pages + 1 } rest
          else
            match capValue limit with
            | some l =>
                let remaining_slots := l - acc.total_found
                if remaining_slots ≤ 0 then (acc, false)
                else
                  let us := us.take remaining_slots.toNat
                  let st := updateDiscovery mode acc.st pr_state page_num us false
                  let total_found := readFoundCounter st pr_state
                  let acc :=
                    { acc with
                      st := st
                      total_found := total_found
                      consecutive_empty := 0
                      consecutive_failures := 0
                      backoff_delay := 1
                      batch_found := acc.batch_found + us.length }
                  if total_found ≥ l then (acc, true)
                  else processBatchItems mode pr_state limit acc rest
            | none =>
                let st := updateDiscovery mode acc.st pr_state page_num us false
                let total_found := readFoundCounter st pr_state
                let acc :=
                  { acc with
                    st := st
                    total_found := total_found
                    consecutive_empty := 0
                    consecutive_failures := 0
                    backoff_delay := 1
                    batch_found := acc.batch_found + us.length }
                processBatchItems mode pr_state limit acc rest

/-- The post-batch backoff block (`if batch_failures > 0: ...`):
`batch_failures` is the count accumulated while processing results;
`rate_limit_failures` is recounted from `future.exception()` over **all**
futures of the batch.  Only a positive rate-limit count sleeps — the delay is
the doubled-and-capped value, slept twice when ≥ 80% of the batch was
rate-limited; other failures reset the delay to the base without sleeping.
Returns the new `backoff_delay` and the sleeps performed. -/
def batchBackoff (batch_failures : Nat) (backoff_delay : Nat)
    (outcomes : List (Int × PageOutcome)) : Nat × List Nat :=
  if batch_failures > 0 then
    let rate_limit_failures := (outcomes.filter fun e => e.2.isRateLimitExc).length
    if rate_limit_failures > 0 then
      let b := min (backoff_delay * 2) maxBackoff
      (b, [b] ++ if 5 * rate_limit_failures ≥ 4 * outcomes.length then [b] else [])
    else (1, [])
  else (backoff_delay, [])

/-- The `consecutive_empty` adjustment after a batch. -/
def nextConsecutiveEmpty (acc : BatchAcc) (futuresCount : Nat) : Nat :=
  if acc.batch_empty_pages = futuresCount then acc.consecutive_empty + 1
  else if acc.batch_found > 0 then 0
  else acc.consecutive_empty + 1

/-- How `_discover_pr_urls_parallel` ended. -/
inductive DiscoveryExit where
  | capReachedTop
  | exhausted
  | capMidBatch
  | capAfterBatch
  | maxPagesExceeded
  | fuelOut
deriving Repr, DecidableEq

/-- Result of the discovery loop: the final crawl state, every executed
`time.sleep` duration in order, the first page of every launched batch, and
the exit condition.  Every exit except the mid-batch `return` (line 358)
falls through to the code after the `while`, which raises the category's
completeness flag and saves; the mid-batch `return` skips that. -/
structure DiscoveryResult where
  state : PRCrawlState
  sleeps : List Nat
  batchStarts : List Int
  exit : DiscoveryExit
deriving Repr, DecidableEq

/-- Raise `open_pages_complete`/`closed_pages_complete` (lines 421–424). -/
def markCategoryComplete (st : PRCrawlState) (pr_state : String) : PRCrawlState :=
  if pr_state = "open" then { st with open_pages_complete := true }
  else { st with closed_pages_complete := true }

/-- The `while page <= max_pages` loop.  `fetch` gives each page's outcome;
`fuel` only bounds the recursion and is chosen large enough in the wrapper
that it never runs out before `page > max_pages`. -/
def discoverGo (mode : UpdateMode) (pr_state : String) (limit : Option Int)
    (fetch : Int → PageOutcome) : Nat → PRCrawlState → Int → Nat → Nat → Nat → Int →
    List Nat → List Int → DiscoveryResult
  | 0, st, _, _, _, _, _, sleeps, starts =>
      { state := st, sleeps := sleeps, batchStarts := starts, exit := .fuelOut }
  | fuel + 1, st, page, consecutive_empty, consecutive_failures, backoff_delay,
      total_found, sleeps, starts =>
    if page > maxPages then
      { state := markCategoryComplete st pr_state, sleeps := sleeps
        batchStarts := starts, exit := .maxPagesExceeded }
    else if (capValue limit).elim false (fun l => total_found ≥ l) then
      { state := markCategoryComplete st pr_state, sleeps := sleeps
        batchStarts := starts, exit := .capReachedTop }
    else if consecutive_empty ≥ maxConsecutiveEmpty then
      { state := markCategoryComplete st pr_state, sleeps := sleeps
        batchStarts := starts, exit := .exhausted }
    else
      let batch_size : Nat := max 1 (10 - consecutive_failures)
      let pages := ((List.range batch_size).map fun i => page + (i : Int)).filter
        fun p => p ≤ maxPages
      let outcomes := pages.map fun p => (p, fetch p)
      let acc : BatchAcc :=
        { st := st, total_found := total_found, consecutive_empty := consecutive_empty
          consecutive_failures := consecutive_failures, backoff_delay := backoff_delay
          batch_found := 0, batch_failures := 0, batch_empty_pages := 0 }
      let r := processBatchItems mode pr_state limit acc outcomes
      let acc := r.1
      let starts := starts ++ [page]
      if r.2 then
        { state := acc.st, sleeps := sleeps, batchStarts := starts, exit := .capMidBatch }
      else
        let consecutive_empty := nextConsecutiveEmpty acc outcomes.length
        let page := page + (batch_size : Int)
        if (capValue limit).elim false (fun l => acc.total_found ≥ l) then
          { state := markCategoryComplete acc.st pr_state, sleeps := sleeps
            batchStarts := starts, exit := .capAfterBatch }
        else
          let b := batchBackoff acc.batch_failures acc.backoff_delay outcomes
          discoverGo mode pr_state limit fetch fuel acc.st page consecutive_empty
            acc.consecutive_failures b.1 acc.total_found (sleeps ++ b.2) starts

/-- `_discover_pr_urls_parallel(state, pr_state, limit)`: start one page past
the stored cursor with fresh counters, base backoff 1 and the stored
per-category found count. -/
def discover_pr_urls_parallel (mode : UpdateMode) (fetch : Int → PageOutcome)
    (st : PRCrawlState) (pr_state : String) (limit : Option Int) : DiscoveryResult :=
  let start_page : Int :=
    (if pr_state = "open" then st.last_open_page else st.last_closed_page) + 1
  let fuel : Nat := (maxPages + 1 - start_page).toNat + 1
  discoverGo mode pr_state limit fetch fuel st start_page 0 0 1
    (readFoundCounter st pr_state) [] []

end AggressivePRScraper

/-! ## Call sequences against one `PRCrawlState`

Per the concurrency model, `recordDiscoveredPage`/`recordScrapeOutcome`
mutations of one repository's state are serialized (a single state owner per
repository), so a run is a sequence of calls. -/

/-- One `update_scraping_progress` / `_update_scraping_progress` call. -/
structure ScrapeCall where
  pr_number : Int
  success : Bool
  pr_url : Option String
deriving Repr, DecidableEq

/-- Fold a call sequence through
`PRCheckpointManager.update_scraping_progress`. -/
def applyScrapeCalls (s : PRCrawlState) : List ScrapeCall → PRCrawlState
  | [] => s
  | c :: rest =>
      applyScrapeCalls (PRCheckpointManager.update_scraping_progress s c.pr_number c.success c.pr_url) rest

/-- One `update_discovery_progress` / `_update_discovery_progress` call. -/
structure DiscoveryCall where
  pr_type : String
  page : Int
  new_urls : List String
  pages_complete : Bool
deriving Repr, DecidableEq

/-- Fold a call sequence through either manager's discovery update
(`AggressivePRScraper.updateDiscovery` dispatches on the mode). -/
def applyDiscoveryCalls (mode : AggressivePRScraper.UpdateMode) (s : PRCrawlState) :
    List DiscoveryCall → PRCrawlState
  | [] => s
  | c :: rest =>
      applyDiscoveryCalls mode
        (AggressivePRScraper.updateDiscovery mode s c.pr_type c.page c.new_urls c.pages_complete) rest

/-- Membership of an item ID among the failed URLs, by derived PR number
(the spec's failedURLs-as-IDs view). -/
def failedAsID (s : PRCrawlState) (id : Int) : Prop :=
  ∃ u ∈ s.failed_pr_urls, PRCheckpointManager.derivedPrNumber u = some id

instance (s : PRCrawlState) (id : Int) : Decidable (failedAsID s id) := by
  unfold failedAsID; infer_instance

/-! # Theorems -/

open PRCheckpointManager in
/-- `update_scraping_progress` adds to `scraped_pr_numbers` exactly on a
success call for that number. -/
theorem mem_scraped_update_scraping (s : PRCrawlState) (m : Int) (b : Bool)
    (u : Option String) (n : Int) :
    n ∈ (update_scraping_progress s m b u).scraped_pr_numbers ↔
      n ∈ s.scraped_pr_numbers ∨ (b = true ∧ m = n) := by
  unfold update_scraping_progress
  cases b with
  | true =>
      by_cases h : m ∈ s.scraped_pr_numbers
      · simp only [if_pos h, if_true]
        cases u <;> simp <;> exact fun heq => heq ▸ h
      · cases u <;>
          simp [h, List.mem_append] <;>
          · constructor
            · rintro (h2 | rfl)
              · exact Or.inl h2
              · exact Or.inr rfl
            · rintro (h2 | rfl)
              · exact Or.inl h2
              · exact Or.inr rfl
  | false =>
      cases u with
      | none => simp
      | some url => by_cases h : url ∈ s.failed_pr_urls <;> simp [h]

open PRCheckpointManager in
/-- `update_scraping_progress` adds to `failed_pr_urls` exactly on a failure
call carrying that URL. -/
theorem mem_failed_update_scraping (s : PRCrawlState) (m : Int) (b : Bool)
    (u : Option String) (x : String) :
    x ∈ (update_scraping_progress s m b u).failed_pr_urls ↔
      x ∈ s.failed_pr_urls ∨ (b = false ∧ u = some x) := by
  unfold update_scraping_progress
  cases b with
  | true =>
      by_cases h : m ∈ s.scraped_pr_numbers <;> cases u <;> simp [h]
  | false =>
      cases u with
      | none => simp
      | some url =>
          by_cases h : url ∈ s.failed_pr_urls
          · simp only [if_pos h, if_true]
            simp
            exact fun heq => heq ▸ h
          · simp [h, List.mem_append]
            constructor
            · rintro (h2 | rfl)
              · exact Or.inl h2
              · exact Or.inr rfl
            · rintro (h2 | rfl)
              · exact Or.inl h2
              · exact Or.inr rfl

/-- Membership in `scraped_pr_numbers` after a call sequence. -/
theorem applyScrapeCalls_scraped_mem (calls : List ScrapeCall) (s : PRCrawlState) (n : Int) :
    n ∈ (applyScrapeCalls s calls).scraped_pr_numbers ↔
      n ∈ s.scraped_pr_numbers ∨ ∃ c ∈ calls, c.success = true ∧ c.pr_number = n := by
  induction calls generalizing s with
  | nil => simp [applyScrapeCalls]
  | cons c rest ih =>
      simp only [applyScrapeCalls, ih, mem_scraped_update_scraping, List.mem_cons]
      aesop

/-- Membership in `failed_pr_urls` after a call sequence. -/
theorem applyScrapeCalls_failed_mem (calls : List ScrapeCall) (s : PRCrawlState) (x : String) :
    x ∈ (applyScrapeCalls s calls).failed_pr_urls ↔
      x ∈ s.failed_pr_urls ∨ ∃ c ∈ calls, c.success = false ∧ c.pr_url = some x := by
  induction calls generalizing s with
  | nil => simp [applyScrapeCalls]
  | cons c rest ih =>
      simp only [applyScrapeCalls, ih, mem_failed_update_scraping, List.mem_cons]
      aesop

open PRCheckpointManager in
/-- C1 (amended): `recordScrapeOutcome` never removes an entry, so the
exactly-one accounting holds only for call sequences that record a single
outcome kind for the item: if the sequence contains a success for the ID and
no failure whose URL derives to it, the ID is in `scraped_pr_numbers` and not
among the failed URLs by derived ID; symmetrically for a failure-only
sequence.  (Recording both outcomes for the same item places the ID in both
sets — see the counterexample.) -/
theorem c1_scrape_accounting_amended (repo_url : String) (total : Int)
    (calls : List ScrapeCall) (id : Int) :
    ((∃ c ∈ calls, c.success = true ∧ c.pr_number = id) →
      ¬ (∃ c ∈ calls, c.success = false ∧
          ∃ u, c.pr_url = some u ∧ derivedPrNumber u = some id) →
      id ∈ (applyScrapeCalls (create_initial_state repo_url total) calls).scraped_pr_numbers ∧
        ¬ failedAsID (applyScrapeCalls (create_initial_state repo_url total) calls) id) ∧
    ((∃ c ∈ calls, c.success = false ∧
        ∃ u, c.pr_url = some u ∧ derivedPrNumber u = some id) →
      ¬ (∃ c ∈ calls, c.success = true ∧ c.pr_number = id) →
      failedAsID (applyScrapeCalls (create_initial_state repo_url total) calls) id ∧
        id ∉ (applyScrapeCalls (create_initial_state repo_url total) calls).scraped_pr_numbers) := by
  constructor
  · rintro ⟨c, hc, hsucc, hnum⟩ hnf
    constructor
    · rw [applyScrapeCalls_scraped_mem]
      exact Or.inr ⟨c, hc, hsucc, hnum⟩
    · rintro ⟨u, hu, hder⟩
      rw [applyScrapeCalls_failed_mem] at hu
      rcases hu with hu | ⟨c', hc', hfail, hurl⟩
      · simp [create_initial_state] at hu
      · exact hnf ⟨c', hc', hfail, u, hurl, hder⟩
  · rintro ⟨c, hc, hfail, u, hurl, hder⟩ hns
    constructor
    · refine ⟨u, ?_, hder⟩
      rw [applyScrapeCalls_failed_mem]
      exact Or.inr ⟨c, hc, hfail, hurl⟩
    · intro hmem
      rw [applyScrapeCalls_scraped_mem] at hmem
      rcases hmem with hmem | ⟨c', hc', hsucc, hnum⟩
      · simp [create_initial_state] at hmem
      · exact hns ⟨c', hc', hsucc, hnum⟩

/-- Witness for the amended C1 theorem at a concrete two-call sequence. -/
theorem c1_scrape_accounting_witness :
    ((∃ c ∈ [ScrapeCall.mk 5 true none, ScrapeCall.mk 7 false (some "https://g/o/r/pull/7")],
        c.success = true ∧ c.pr_number = 5) ∧
      ¬ (∃ c ∈ [ScrapeCall.mk 5 true none, ScrapeCall.mk 7 false (some "https://g/o/r/pull/7")],
        c.success = false ∧ ∃ u, c.pr_url = some u ∧
          PRCheckpointManager.derivedPrNumber u = some 5) ∧
      (5 : Int) ∈ (applyScrapeCalls (PRCheckpointManager.create_initial_state "https://g/o/r" 9)
        [ScrapeCall.mk 5 true none,
         ScrapeCall.mk 7 false (some "https://g/o/r/pull/7")]).scraped_pr_numbers) ∧
    failedAsID (applyScrapeCalls (PRCheckpointManager.create_initial_state "https://g/o/r" 9)
      [ScrapeCall.mk 5 true none, ScrapeCall.mk 7 false (some "https://g/o/r/pull/7")]) 7 := by
  have h1 := (c1_scrape_accounting_amended "https://g/o/r" 9
    [ScrapeCall.mk 5 true none, ScrapeCall.mk 7 false (some "https://g/o/r/pull/7")] 5).1
    (by decide) (by decide)
  have h2 := (c1_scrape_accounting_amended "https://g/o/r" 9
    [ScrapeCall.mk 5 true none, ScrapeCall.mk 7 false (some "https://g/o/r/pull/7")] 7).2
    (by decide) (by decide)
  exact ⟨⟨by decide, by decide, h1.1⟩, h2.1⟩

open PRCheckpointManager AggressivePRScraper in
/-- C1 counterexample: recording a success and then a failure for the same
item (PR 5) leaves its ID in `scraped_pr_numbers` **and** its URL in
`failed_pr_urls` (which derives to the same ID), in both the checkpoint
manager's `update_scraping_progress` and the unified-cache
`_update_scraping_progress`; the claimed exactly-one invariant is not
preserved. -/
theorem c1_scrape_accounting_counterexample :
    (5 ∈ (update_scraping_progress
        (update_scraping_progress (create_initial_state "https://g/o/r" 9) 5 true none)
        5 false (some "https://g/o/r/pull/5")).scraped_pr_numbers ∧
      failedAsID (update_scraping_progress
        (update_scraping_progress (create_initial_state "https://g/o/r" 9) 5 true none)
        5 false (some "https://g/o/r/pull/5")) 5) ∧
    (5 ∈ (updateScrapingProgressUnified
        (updateScrapingProgressUnified (create_initial_state "https://g/o/r" 9) 5 true none)
        5 false (some "https://g/o/r/pull/5")).scraped_pr_numbers ∧
      failedAsID (updateScrapingProgressUnified
        (updateScrapingProgressUnified (create_initial_state "https://g/o/r" 9) 5 true none)
        5 false (some "https://g/o/r/pull/5")) 5) := by
  decide

/-- Membership after the `update_discovery_progress` append loop. -/
theorem addNewUrls_mem (urls acc : List String) (y : String) :
    y ∈ (PRCheckpointManager.addNewUrls acc urls).1 ↔ y ∈ acc ∨ y ∈ urls := by
  induction urls generalizing acc with
  | nil => simp [PRCheckpointManager.addNewUrls]
  | cons url rest ih =>
      by_cases h : url ∈ acc <;>
        simp [PRCheckpointManager.addNewUrls, h, ih, List.mem_append] <;>
        aesop

/-- The append loop preserves duplicate-freeness. -/
theorem addNewUrls_nodup (urls acc : List String) (h : acc.Nodup) :
    (PRCheckpointManager.addNewUrls acc urls).1.Nodup := by
  induction urls generalizing acc with
  | nil => exact h
  | cons url rest ih =>
      by_cases hm : url ∈ acc
      · simpa [PRCheckpointManager.addNewUrls, hm] using ih acc h
      · have : (acc ++ [url]).Nodup := by simp [List.nodup_append, h, hm]
        simpa [PRCheckpointManager.addNewUrls, hm] using ih (acc ++ [url]) this

/-- The append loop is a no-op when every URL is already present. -/
theorem addNewUrls_noop (urls acc : List String) (h : ∀ u ∈ urls, u ∈ acc) :
    PRCheckpointManager.addNewUrls acc urls = (acc, 0) := by
  induction urls with
  | nil => rfl
  | cons url rest ih =>
      have hu : url ∈ acc := h url (List.mem_cons_self url rest)
      simp only [PRCheckpointManager.addNewUrls, if_pos hu]
      exact ih fun u hu2 => h u (List.mem_cons_of_mem url hu2)

/-- Membership after the unified-cache append loop. -/
theorem dedupFoldl_mem (urls acc : List String) (y : String) :
    y ∈ urls.foldl (fun acc url => if url ∈ acc then acc else acc ++ [url]) acc ↔
      y ∈ acc ∨ y ∈ urls := by
  induction urls generalizing acc with
  | nil => simp
  | cons url rest ih =>
      by_cases h : url ∈ acc <;>
        simp [h, ih, List.mem_append] <;>
        aesop

/-- The unified-cache append loop preserves duplicate-freeness. -/
theorem dedupFoldl_nodup (urls acc : List String) (h : acc.Nodup) :
    (urls.foldl (fun acc url => if url ∈ acc then acc else acc ++ [url]) acc).Nodup := by
  induction urls generalizing acc with
  | nil => exact h
  | cons url rest ih =>
      by_cases hm : url ∈ acc
      · simpa [hm] using ih acc h
      · have : (acc ++ [url]).Nodup := by simp [List.nodup_append, h, hm]
        simpa [hm] using ih (acc ++ [url]) this

/-- The unified-cache append loop is a no-op when every URL is present. -/
theorem dedupFoldl_noop (urls acc : List String) (h : ∀ u ∈ urls, u ∈ acc) :
    urls.foldl (fun acc url => if url ∈ acc then acc else acc ++ [url]) acc = acc := by
  induction urls with
  | nil => rfl
  | cons url rest ih =>
      have hu : url ∈ acc := h url (List.mem_cons_self url rest)
      simp only [List.foldl_cons, if_pos hu]
      exact ih fun u hu2 => h u (List.mem_cons_of_mem url hu2)

open PRCheckpointManager in
/-- `update_discovery_progress` changes `discovered_pr_urls` exactly by the
append loop. -/
theorem update_discovery_discovered (s : PRCrawlState) (pt : String) (page : Int)
    (urls : List String) (pc : Bool) :
    (update_discovery_progress s pt page urls pc).discovered_pr_urls =
      (addNewUrls s.discovered_pr_urls urls).1 := by
  simp only [update_discovery_progress]
  split <;> rfl

open AggressivePRScraper in
/-- `_update_discovery_progress` (unified branch) changes
`discovered_pr_urls` exactly by its append loop. -/
theorem update_discovery_unified_discovered (s : PRCrawlState) (pt : String) (page : Int)
    (urls : List String) (pc : Bool) :
    (updateDiscoveryProgressUnified s pt page urls pc).discovered_pr_urls =
      urls.foldl (fun acc url => if url ∈ acc then acc else acc ++ [url])
        s.discovered_pr_urls := by
  simp only [updateDiscoveryProgressUnified]
  split <;> rfl

open AggressivePRScraper in
/-- Either manager's discovery update preserves duplicate-freeness of
`discovered_pr_urls`. -/
theorem updateDiscovery_nodup (mode : UpdateMode) (s : PRCrawlState) (pt : String)
    (page : Int) (urls : List String) (pc : Bool) (h : s.discovered_pr_urls.Nodup) :
    (updateDiscovery mode s pt page urls pc).discovered_pr_urls.Nodup := by
  cases mode with
  | unified =>
      rw [updateDiscovery, update_discovery_unified_discovered]
      exact dedupFoldl_nodup urls _ h
  | checkpoint =>
      rw [updateDiscovery, update_discovery_discovered]
      exact addNewUrls_nodup urls _ h

open PRCheckpointManager AggressivePRScraper in
/-- C4: discovery recording is idempotent — re-delivering the same page's URL
list leaves `discovered_pr_urls` unchanged after the second call, in both
`PRCheckpointManager.update_discovery_progress` and the unified-cache
`_update_discovery_progress` — and any call sequence through either manager,
starting from a fresh state, leaves `discovered_pr_urls` duplicate-free. -/
theorem c4_idempotent_discovery :
    (∀ (s : PRCrawlState) (pt : String) (page : Int) (urls : List String) (pc : Bool),
      (update_discovery_progress (update_discovery_progress s pt page urls pc)
          pt page urls pc).discovered_pr_urls =
        (update_discovery_progress s pt page urls pc).discovered_pr_urls) ∧
    (∀ (s : PRCrawlState) (pt : String) (page : Int) (urls : List String) (pc : Bool),
      (updateDiscoveryProgressUnified (updateDiscoveryProgressUnified s pt page urls pc)
          pt page urls pc).discovered_pr_urls =
        (updateDiscoveryProgressUnified s pt page urls pc).discovered_pr_urls) ∧
    (∀ (mode : UpdateMode) (repo_url : String) (total : Int) (calls : List DiscoveryCall),
      (applyDiscoveryCalls mode (create_initial_state repo_url total)
          calls).discovered_pr_urls.Nodup) := by
  refine ⟨?_, ?_, ?_⟩
  · intro s pt page urls pc
    rw [update_discovery_discovered, update_discovery_discovered,
      addNewUrls_noop urls _
        fun u hu => (addNewUrls_mem urls s.discovered_pr_urls u).mpr (Or.inr hu)]
  · intro s pt page urls pc
    rw [update_discovery_unified_discovered, update_discovery_unified_discovered,
      dedupFoldl_noop urls _
        fun u hu => (dedupFoldl_mem urls s.discovered_pr_urls u).mpr (Or.inr hu)]
  · intro mode repo_url total calls
    have go : ∀ (calls : List DiscoveryCall) (s : PRCrawlState),
        s.discovered_pr_urls.Nodup →
        (applyDiscoveryCalls mode s calls).discovered_pr_urls.Nodup := by
      intro calls
      induction calls with
      | nil => intro s h; exact h
      | cons c rest ih =>
          intro s h
          exact ih _ (updateDiscovery_nodup mode s c.pr_type c.page c.new_urls
            c.pages_complete h)
    exact go calls _ (by simp [create_initial_state])

/-- Rational form of the 90%-of-target comparison. -/
theorem quota_rat_iff (t c : Int) : ((t : ℚ) * (9 / 10) ≤ (c : ℚ)) ↔ 9 * t ≤ 10 * c := by
  rw [show (t : ℚ) * (9 / 10) = ((9 * t : Int) : ℚ) / 10 by push_cast; ring,
    div_le_iff₀ (by norm_num : (0 : ℚ) < 10),
    show ((c : ℚ) * 10) = ((10 * c : Int) : ℚ) by push_cast; ring]
  exact Int.cast_le

set_option maxRecDepth 40000 in
open EnhancedCrawler in
/-- C2: `_meets_minimum_pr_requirement` accepts exactly when
`scrapedClosedCount ≥ min(requiredQuota, closedAvailable) * 0.9`
(equivalently `9·min(quota, available) ≤ 10·scraped`); for quota 1000 and 400
available the threshold is 360, so 370 scraped closed PRs are accepted and
350 are not. -/
theorem c2_quota_acceptance :
    (∀ (min_prs_required : Int) (repository : CrawledRepository),
      meets_minimum_pr_requirement min_prs_required repository =
        decide (((closedPrsScraped repository : Int) : ℚ) ≥
          ((min min_prs_required repository.stats.closed_pull_requests : Int) : ℚ) *
            (9 / 10))) ∧
    (∀ (min_prs_required : Int) (repository : CrawledRepository),
      meets_minimum_pr_requirement min_prs_required repository = true ↔
        9 * min min_prs_required repository.stats.closed_pull_requests ≤
          10 * (closedPrsScraped repository : Int)) ∧
    ((min (1000 : Int) 400 : ℚ) * (9 / 10) = 360) ∧
    meets_minimum_pr_requirement 1000
      { url := "https://g/o/r", stars := 0, language := []
        stats := { closed_pull_requests := 400, pr_counts_available := true }
        pull_requests := (List.range 370).map fun i =>
          { number := (i : Int), state := "closed" } } = true ∧
    meets_minimum_pr_requirement 1000
      { url := "https://g/o/r", stars := 0, language := []
        stats := { closed_pull_requests := 400, pr_counts_available := true }
        pull_requests := (List.range 350).map fun i =>
          { number := (i : Int), state := "closed" } } = false := by
  have hchar : ∀ (q : Int) (repo : CrawledRepository),
      meets_minimum_pr_requirement q repo = true ↔
        9 * min q repo.stats.closed_pull_requests ≤ 10 * (closedPrsScraped repo : Int) := by
    intro q repo
    simp only [meets_minimum_pr_requirement, requiredThreshold, Frac.ofInt, Frac.mul,
      Frac.leB, decide_eq_true_eq]
    omega
  refine ⟨?_, hchar, by norm_num, ?_, ?_⟩
  · intro q repo
    cases hb : meets_minimum_pr_requirement q repo with
    | false =>
        symm
        rw [decide_eq_false_iff_not]
        intro hP
        have ht : meets_minimum_pr_requirement q repo = true :=
          (hchar q repo).mpr ((quota_rat_iff _ _).mp (ge_iff_le.mp hP))
        rw [hb] at ht
        exact absurd ht (by simp)
    | true =>
        symm
        rw [decide_eq_true_eq]
        exact ge_iff_le.mpr ((quota_rat_iff _ _).mpr ((hchar q repo).mp hb))
  · rw [hchar]
    have h370 : closedPrsScraped
        { url := "https://g/o/r", stars := 0, language := []
          stats := { closed_pull_requests := 400, pr_counts_available := true }
          pull_requests := (List.range 370).map fun i =>
            { number := (i : Int), state := "closed" } } = 370 := by decide
    rw [h370]
    decide
  · rw [Bool.eq_false_iff, Ne, hchar]
    have h350 : closedPrsScraped
        { url := "https://g/o/r", stars := 0, language := []
          stats := { closed_pull_requests := 400, pr_counts_available := true }
          pull_requests := (List.range 350).map fun i =>
            { number := (i : Int), state := "closed" } } = 350 := by decide
    rw [h350]
    decide

/-- `_flush_queue` run twice is `_flush_queue` run once (the second call sees
an empty queue and does nothing). -/
theorem flushQueue_idem (st : UnifiedCacheManager.CacheState) :
    UnifiedCacheManager.flushQueue (UnifiedCacheManager.flushQueue st) =
      UnifiedCacheManager.flushQueue st := by
  unfold UnifiedCacheManager.flushQueue
  by_cases h : st.write_queue.isEmpty <;> simp [h]

/-- Queued pairs carrying other PRs contribute nothing to a PR's count in the
flushed file. -/
theorem flush_other_count (q : List (String × PullRequestInfo)) (path : String)
    (pr : PullRequestInfo) (h : ∀ e ∈ q, e.2 ≠ pr) :
    ((q.filter fun e => UnifiedCacheManager.prCachePath e.1 = path).map
      (·.2)).count pr = 0 := by
  rw [List.count_eq_zero]
  intro hmem
  rcases List.mem_map.mp hmem with ⟨e, he, rfl⟩
  exact h e (List.mem_of_mem_filter he) rfl

open UnifiedCacheManager in
/-- C5: an item enqueued by `cache_pr_immediately` (below the flush
threshold, not already queued or on disk) is absent from `load_cached_prs`
until `_flush_queue` runs, appears exactly once afterwards, and a second
flush on the emptied queue writes nothing further. -/
theorem c5_cache_flush_boundary (st : CacheState) (repo_url : String)
    (pr : PullRequestInfo)
    (hlen : st.write_queue.length + 1 < st.batch_size)
    (hdisk : pr ∉ load_cached_prs st repo_url)
    (hqueue : ∀ e ∈ st.write_queue, e.2 ≠ pr) :
    pr ∉ load_cached_prs (cache_pr_immediately st repo_url pr) repo_url ∧
    (load_cached_prs (flushQueue (cache_pr_immediately st repo_url pr)) repo_url).count pr = 1 ∧
    flushQueue (flushQueue (cache_pr_immediately st repo_url pr)) =
      flushQueue (cache_pr_immediately st repo_url pr) := by
  have hnoflush :
      cache_pr_immediately st repo_url pr =
        { st with write_queue := st.write_queue ++ [(repo_url, pr)] } := by
    unfold cache_pr_immediately
    simp only [List.length_append, List.length_singleton]
    rw [if_neg (by omega)]
  refine ⟨?_, ?_, flushQueue_idem _⟩
  · rw [hnoflush]
    exact hdisk
  · rw [hnoflush]
    unfold flushQueue
    rw [if_neg (by simp)]
    simp only [load_cached_prs, List.filter_append, List.map_append, List.count_append]
    have h0 : List.count pr (st.files (prCachePath repo_url)) = 0 :=
      List.count_eq_zero.mpr hdisk
    have hmid := flush_other_count st.write_queue (prCachePath repo_url) pr hqueue
    have hnew : List.count pr
        ((List.filter (fun e => decide (prCachePath e.1 = prCachePath repo_url))
          [(repo_url, pr)]).map (·.2)) = 1 := by simp
    omega

open UnifiedCacheManager in
/-- Witness for the C5 flush-boundary theorem at a concrete cache state. -/
theorem c5_cache_flush_boundary_witness :
    ([(("https://g/o/s" : String), PullRequestInfo.mk 2 "closed" "")].length + 1 < 20 ∧
      PullRequestInfo.mk 1 "closed" "" ∉
        load_cached_prs (CacheState.mk 20 [("https://g/o/s", PullRequestInfo.mk 2 "closed" "")]
          fun _ => []) "https://g/o/r" ∧
      (∀ e ∈ [(("https://g/o/s" : String), PullRequestInfo.mk 2 "closed" "")],
        e.2 ≠ PullRequestInfo.mk 1 "closed" "")) ∧
    (load_cached_prs (flushQueue (cache_pr_immediately
        (CacheState.mk 20 [("https://g/o/s", PullRequestInfo.mk 2 "closed" "")] fun _ => [])
        "https://g/o/r" (PullRequestInfo.mk 1 "closed" ""))) "https://g/o/r").count
      (PullRequestInfo.mk 1 "closed" "") = 1 := by
  have h := c5_cache_flush_boundary
    (CacheState.mk 20 [("https://g/o/s", PullRequestInfo.mk 2 "closed" "")] fun _ => [])
    "https://g/o/r" (PullRequestInfo.mk 1 "closed" "")
    (by decide) (by simp [load_cached_prs]) (by decide)
  exact ⟨⟨by decide, by simp [load_cached_prs], by decide⟩, h.2.1⟩

open FailedIssueCacheM in
/-- `mark_failed` bumps the repository's failure counter by one. -/
theorem mark_failed_counts (c : FailedIssueCache) (now : ℚ) (repo_url : String) (i : Int) :
    (mark_failed c now repo_url i).failure_counts repo_url = c.failure_counts repo_url + 1 := by
  simp only [mark_failed]
  split <;> simp

open FailedIssueCacheM in
/-- `mark_failed` leaves the configured threshold and timeout alone. -/
theorem mark_failed_config (c : FailedIssueCache) (now : ℚ) (repo_url : String) (i : Int) :
    (mark_failed c now repo_url i).failure_threshold = c.failure_threshold ∧
    (mark_failed c now repo_url i).block_timeout = c.block_timeout := by
  simp only [mark_failed]
  split <;> exact ⟨rfl, rfl⟩

open FailedIssueCacheM in
/-- `mark_failed` sets the block exactly when the bumped counter reaches the
threshold. -/
theorem mark_failed_blocked (c : FailedIssueCache) (now : ℚ) (repo_url : String) (i : Int) :
    (mark_failed c now repo_url i).blocked_until repo_url =
      if c.failure_counts repo_url + 1 ≥ c.failure_threshold then
        some (now + c.block_timeout)
      else c.blocked_until repo_url := by
  simp only [mark_failed]
  split <;> simp_all

open FailedIssueCacheM in
/-- The failure counter after a run of `mark_failed` calls. -/
theorem markFailures_counts (repo_url : String) :
    ∀ (calls : List (ℚ × Int)) (c : FailedIssueCache),
      (markFailures c repo_url calls).failure_counts repo_url =
        c.failure_counts repo_url + calls.length
  | [], c => by simp [markFailures]
  | (t, i) :: rest, c => by
      rw [markFailures, markFailures_counts repo_url rest, mark_failed_counts]
      simp
      omega

open FailedIssueCacheM in
/-- Threshold and timeout after a run of `mark_failed` calls. -/
theorem markFailures_config (repo_url : String) :
    ∀ (calls : List (ℚ × Int)) (c : FailedIssueCache),
      (markFailures c repo_url calls).failure_threshold = c.failure_threshold ∧
      (markFailures c repo_url calls).block_timeout = c.block_timeout
  | [], c => ⟨rfl, rfl⟩
  | (t, i) :: rest, c => by
      rw [markFailures]
      rcases markFailures_config repo_url rest (mark_failed c t repo_url i) with ⟨h1, h2⟩
      rcases mark_failed_config c t repo_url i with ⟨h3, h4⟩
      exact ⟨h1.trans h3, h2.trans h4⟩

open FailedIssueCacheM in
/-- The block after a run of `mark_failed` calls: set to the last call's time
plus the timeout exactly when the accumulated count reaches the threshold. -/
theorem markFailures_blocked (repo_url : String) :
    ∀ (calls : List (ℚ × Int)) (c : FailedIssueCache) (tl : ℚ) (il : Int),
      calls.getLast? = some (tl, il) →
      (markFailures c repo_url calls).blocked_until repo_url =
        if c.failure_counts repo_url + calls.length ≥ c.failure_threshold then
          some (tl + c.block_timeout)
        else c.blocked_until repo_url
  | [], _, _, _, h => by simp at h
  | [(t0, i0)], c, tl, il, h => by
      simp only [List.getLast?_singleton, Option.some_inj, Prod.mk.injEq] at h
      rw [markFailures, markFailures, mark_failed_blocked, h.1]
      simp
  | (t0, i0) :: (r :: rs), c, tl, il, h => by
      rw [List.getLast?_cons_cons] at h
      rw [markFailures,
        markFailures_blocked repo_url (r :: rs) (mark_failed c t0 repo_url i0) tl il h,
        mark_failed_counts, (mark_failed_config c t0 repo_url i0).1,
        (mark_failed_config c t0 repo_url i0).2, mark_failed_blocked]
      by_cases hcross : c.failure_counts repo_url + ((t0, i0) :: r :: rs).length ≥
          c.failure_threshold
      · rw [if_pos (show c.failure_counts repo_url + 1 + (r :: rs).length ≥
            c.failure_threshold by simp at hcross ⊢; omega), if_pos hcross]
      · rw [if_neg (show ¬ c.failure_counts repo_url + 1 + (r :: rs).length ≥
            c.failure_threshold by simp at hcross ⊢; omega),
          if_neg (show ¬ c.failure_counts repo_url + 1 ≥
            c.failure_threshold by simp at hcross ⊢; omega),
          if_neg hcross]

open FailedIssueCacheM in
/-- C8: once `failure_threshold` consecutive `mark_failed` calls are recorded
for a repository (starting from a zero counter), `should_attempt_repo`
returns `False` strictly before `blockTimeout` has elapsed from the last
failure, returns `True` from that moment on — deleting the block and
resetting the counter to zero — and a single `mark_success` clears both the
counter and the block immediately. -/
theorem c8_circuit_breaker (c : FailedIssueCache) (repo_url : String)
    (calls : List (ℚ × Int)) (tl : ℚ) (il : Int)
    (h0 : c.failure_counts repo_url = 0)
    (hlen : calls.length = c.failure_threshold)
    (hlast : calls.getLast? = some (tl, il)) :
    (∀ now : ℚ, now < tl + c.block_timeout →
      (should_attempt_repo (markFailures c repo_url calls) now repo_url).1 = false) ∧
    (∀ now : ℚ, tl + c.block_timeout ≤ now →
      (should_attempt_repo (markFailures c repo_url calls) now repo_url).1 = true ∧
      (should_attempt_repo (markFailures c repo_url calls) now
        repo_url).2.failure_counts repo_url = 0 ∧
      (should_attempt_repo (markFailures c repo_url calls) now
        repo_url).2.blocked_until repo_url = none) ∧
    ((mark_success (markFailures c repo_url calls) repo_url).failure_counts repo_url = 0 ∧
      (mark_success (markFailures c repo_url calls) repo_url).blocked_until repo_url = none ∧
      ∀ now : ℚ,
        (should_attempt_repo (mark_success (markFailures c repo_url calls) repo_url) now
          repo_url).1 = true) := by
  have hb : (markFailures c repo_url calls).blocked_until repo_url =
      some (tl + c.block_timeout) := by
    rw [markFailures_blocked repo_url calls c tl il hlast, if_pos (by omega)]
  refine ⟨?_, ?_, ?_⟩
  · intro now hnow
    simp [should_attempt_repo, hb, hnow]
  · intro now hnow
    refine ⟨?_, ?_, ?_⟩ <;> simp [should_attempt_repo, hb, not_lt.mpr hnow]
  · refine ⟨by simp [mark_success], by simp [mark_success], fun now => ?_⟩
    simp [should_attempt_repo, mark_success]

open FailedIssueCacheM in
/-- Witness for the C8 circuit-breaker theorem: ten failures (the configured
threshold) at times 0..9 block until 309; probed at times 308 and 1000. -/
theorem c8_circuit_breaker_witness :
    (initCache.failure_counts "https://g/o/r" = 0 ∧
      ([((0 : ℚ), (1 : Int)), (1, 2), (2, 3), (3, 4), (4, 5), (5, 6), (6, 7), (7, 8),
        (8, 9), (9, 10)].length = initCache.failure_threshold) ∧
      ([((0 : ℚ), (1 : Int)), (1, 2), (2, 3), (3, 4), (4, 5), (5, 6), (6, 7), (7, 8),
        (8, 9), (9, 10)].getLast? = some (9, 10)) ∧
      (308 : ℚ) < 9 + initCache.block_timeout ∧
      (9 : ℚ) + initCache.block_timeout ≤ 1000) ∧
    ((should_attempt_repo (markFailures initCache "https://g/o/r"
        [((0 : ℚ), (1 : Int)), (1, 2), (2, 3), (3, 4), (4, 5), (5, 6), (6, 7), (7, 8),
         (8, 9), (9, 10)]) 308 "https://g/o/r").1 = false ∧
      (should_attempt_repo (markFailures initCache "https://g/o/r"
        [((0 : ℚ), (1 : Int)), (1, 2), (2, 3), (3, 4), (4, 5), (5, 6), (6, 7), (7, 8),
         (8, 9), (9, 10)]) 1000 "https://g/o/r").1 = true ∧
      (mark_success (markFailures initCache "https://g/o/r"
        [((0 : ℚ), (1 : Int)), (1, 2), (2, 3), (3, 4), (4, 5), (5, 6), (6, 7), (7, 8),
         (8, 9), (9, 10)]) "https://g/o/r").blocked_until "https://g/o/r" = none) := by
  have h := c8_circuit_breaker initCache "https://g/o/r"
    [((0 : ℚ), (1 : Int)), (1, 2), (2, 3), (3, 4), (4, 5), (5, 6), (6, 7), (7, 8),
     (8, 9), (9, 10)] 9 10 rfl (by rfl) (by rfl)
  refine ⟨⟨rfl, by rfl, by rfl, ?_, ?_⟩, h.1 308 ?_, (h.2.1 1000 ?_).1, h.2.2.2.1⟩ <;>
    norm_num [initCache]

open UnifiedCacheManager PRCheckpointManager in
/-- C3: the save/load round trip of `RepositoryCrawlState` is **not** the
identity — `json.dump` stringifies the int keys of `pr_commit_mapping` and
`from_dict` hands the string-keyed dict back to the constructor, so a state
holding commits for PR 1 under the int key comes back with the string key
`"1"`; consequently `get_pr_commits` (which looks up the int key) returns
`[]` immediately after `save_pr_commits` persisted through a snapshot. -/
theorem c3_resume_equivalence_bug :
    (decodeState (encodeState
        { create_initial_state "https://g/o/r" 9 with
            pr_commit_mapping := [(.int 1, ["a1b2"])] }) =
      some { create_initial_state "https://g/o/r" 9 with
        pr_commit_mapping := [(.str "1", ["a1b2"])] }) ∧
    (decodeState (encodeState
        { create_initial_state "https://g/o/r" 9 with
            pr_commit_mapping := [(.int 1, ["a1b2"])] }) ≠
      some { create_initial_state "https://g/o/r" 9 with
        pr_commit_mapping := [(.int 1, ["a1b2"])] }) ∧
    (get_pr_commits
        (save_pr_commits
          (save_crawl_state (fun _ => .absent) (create_initial_state "https://g/o/r" 9))
          "https://g/o/r" 1 ["a1b2"])
        "https://g/o/r" 1 = ([] : List String)) := by
  refine ⟨by decide, by decide, by decide⟩

open UnifiedCacheManager PRCheckpointManager in
/-- C7 counterexample: `save_crawl_state` overwrites the snapshot in place
(`open(file, 'w')` truncates before `json.dump` refills), so a reader midway
through the save observes a state that is neither the old snapshot nor the
new one: `load_crawl_state` yields the old state before the save and the new
state after it, but `none` at the truncated intermediate step. -/
theorem c7_atomic_save_counterexample :
    (load_crawl_state
        (save_crawl_state (fun _ => .absent) (create_initial_state "https://g/o/r" 9))
        "https://g/o/r" = some (create_initial_state "https://g/o/r" 9)) ∧
    (load_crawl_state
        ((save_crawl_state_trace
            (save_crawl_state (fun _ => .absent) (create_initial_state "https://g/o/r" 9))
            { create_initial_state "https://g/o/r" 9 with scraped_pr_numbers := [1] }).getD 0
          fun _ => .absent)
        "https://g/o/r" = none) ∧
    (load_crawl_state
        ((save_crawl_state_trace
            (save_crawl_state (fun _ => .absent) (create_initial_state "https://g/o/r" 9))
            { create_initial_state "https://g/o/r" 9 with scraped_pr_numbers := [1] }).getD 1
          fun _ => .absent)
        "https://g/o/r" =
      some { create_initial_state "https://g/o/r" 9 with scraped_pr_numbers := [1] }) := by
  refine ⟨by decide, by decide, by decide⟩

open UnifiedCacheManager in
/-- C7 (amended): `save_crawl_state` writes the snapshot file in place — the
write sequence touches only the checkpoint path, passes through a truncated
(corrupt) intermediate, and ends with the serialized state — and
`load_crawl_state` returns `none` whenever the file is absent or its
contents unparseable, never raising. -/
theorem c7_save_load_amended :
    (∀ (fs : FS) (repo_url : String), fs (checkpointPath repo_url) = .absent →
      load_crawl_state fs repo_url = none) ∧
    (∀ (fs : FS) (repo_url : String), fs (checkpointPath repo_url) = .corrupt →
      load_crawl_state fs repo_url = none) ∧
    (∀ (fs : FS) (st : PRCrawlState),
      ((save_crawl_state_trace fs st).getD 0 fun _ => .absent)
        (checkpointPath st.repo_url) = .corrupt) ∧
    (∀ (fs : FS) (st : PRCrawlState),
      save_crawl_state fs st (checkpointPath st.repo_url) = .valid (encodeState st)) ∧
    (∀ (fs : FS) (st : PRCrawlState) (p : String), p ≠ checkpointPath st.repo_url →
      save_crawl_state fs st p = fs p ∧
      ((save_crawl_state_trace fs st).getD 0 fun _ => .absent) p = fs p ∧
      ((save_crawl_state_trace fs st).getD 1 fun _ => .absent) p = fs p) := by
  refine ⟨?_, ?_, ?_, ?_, ?_⟩
  · intro fs repo_url h
    unfold load_crawl_state
    rw [h]
  · intro fs repo_url h
    unfold load_crawl_state
    rw [h]
  · intro fs st
    simp [save_crawl_state_trace]
  · intro fs st
    simp [save_crawl_state]
  · intro fs st p hp
    refine ⟨?_, ?_, ?_⟩ <;> simp [save_crawl_state, save_crawl_state_trace, hp]

open UnifiedCacheManager PRCheckpointManager in
/-- Witness for the amended C7 save/load theorem at concrete file systems. -/
theorem c7_save_load_witness :
    ((fun _ => FileContent.absent : FS) (checkpointPath "https://g/o/r") = .absent ∧
      load_crawl_state (fun _ => FileContent.absent) "https://g/o/r" = none) ∧
    ((fun _ => FileContent.corrupt : FS) (checkpointPath "https://g/o/r") = .corrupt ∧
      load_crawl_state (fun _ => FileContent.corrupt) "https://g/o/r" = none) ∧
    ("other.json" ≠ checkpointPath "https://g/o/r" ∧
      save_crawl_state (fun _ => FileContent.absent)
        (create_initial_state "https://g/o/r" 9) "other.json" = .absent) := by
  refine ⟨⟨rfl, c7_save_load_amended.1 _ "https://g/o/r" rfl⟩,
    ⟨rfl, c7_save_load_amended.2.1 _ "https://g/o/r" rfl⟩,
    ⟨by decide, ?_⟩⟩
  exact (c7_save_load_amended.2.2.2.2 (fun _ => FileContent.absent)
    (create_initial_state "https://g/o/r" 9) "other.json" (by decide)).1

open EnhancedCrawler in
/-- A zero-new-PRs exit of the retry loop can only happen from the second
scrape attempt onward, and the attempt that triggered it merged zero new
PRs. -/
theorem continueScrapingGo_zeroNew (scraper : Nat → List PullRequestInfo) (minReq : Int) :
    ∀ (fuel retry : Nat) (working : CrawledRepository) (counts : List Nat),
      retry = counts.length →
      (continueScrapingGo scraper minReq fuel retry working counts).exit = .zeroNewPrs →
      2 ≤ (continueScrapingGo scraper minReq fuel retry working counts).attemptsUsed ∧
      (continueScrapingGo scraper minReq fuel retry working
        counts).newCounts.getLast? = some 0
  | 0, retry, working, counts, hinv, hexit => by
      simp [continueScrapingGo] at hexit
  | fuel + 1, retry, working, counts, hinv, hexit => by
      simp only [continueScrapingGo] at hexit ⊢
      by_cases h1 : meets_minimum_pr_requirement minReq working = true
      · rw [if_pos h1] at hexit
        simp at hexit
      · rw [if_neg h1] at hexit ⊢
        by_cases h2 : (prsNeeded
            (requiredThreshold (min minReq working.stats.closed_pull_requests))
            (closedPrsScraped working) == 0) = true
        · rw [if_pos h2] at hexit
          simp at hexit
        · rw [if_neg h2] at hexit ⊢
          by_cases h3 : ((filterNewPrs working (scraper (retry + 1))).length == 0 &&
              decide (retry + 1 ≥ 2)) = true
          · rw [if_pos h3] at hexit ⊢
            rcases Bool.and_eq_true_iff.mp h3 with ⟨hlen, hge⟩
            have hlen0 : (filterNewPrs working (scraper (retry + 1))).length = 0 := by
              simpa using hlen
            have hge2 : 2 ≤ retry + 1 := by simpa using of_decide_eq_true hge
            refine ⟨?_, ?_⟩
            · simp only [List.length_append, List.length_singleton]
              omega
            · simp [hlen0]
          · rw [if_neg h3] at hexit ⊢
            exact continueScrapingGo_zeroNew scraper minReq fuel (retry + 1)
              (mergeWorking working (filterNewPrs working (scraper (retry + 1))))
              (counts ++ [(filterNewPrs working (scraper (retry + 1))).length])
              (by simp [hinv]) hexit

open EnhancedCrawler in
/-- The retry loop performs at most `fuel` further scrape attempts. -/
theorem continueScrapingGo_attempts (scraper : Nat → List PullRequestInfo) (minReq : Int) :
    ∀ (fuel retry : Nat) (working : CrawledRepository) (counts : List Nat),
      (continueScrapingGo scraper minReq fuel retry working counts).attemptsUsed ≤
        counts.length + fuel
  | 0, retry, working, counts => by simp [continueScrapingGo]
  | fuel + 1, retry, working, counts => by
      simp only [continueScrapingGo]
      by_cases h1 : meets_minimum_pr_requirement minReq working = true
      · rw [if_pos h1]
        simp
      · rw [if_neg h1]
        by_cases h2 : (prsNeeded
            (requiredThreshold (min minReq working.stats.closed_pull_requests))
            (closedPrsScraped working) == 0) = true
        · rw [if_pos h2]
          simp
        · rw [if_neg h2]
          by_cases h3 : ((filterNewPrs working (scraper (retry + 1))).length == 0 &&
              decide (retry + 1 ≥ 2)) = true
          · rw [if_pos h3]
            simp
            try omega
          · rw [if_neg h3]
            have := continueScrapingGo_attempts scraper minReq fuel (retry + 1)
              (mergeWorking working (filterNewPrs working (scraper (retry + 1))))
              (counts ++ [(filterNewPrs working (scraper (retry + 1))).length])
            simp only [List.length_append, List.length_singleton] at this
            omega

open EnhancedCrawler in
/-- Whatever ends the retry loop, it returns a successful `CrawlResult`
carrying a repository whose PR list extends the input's. -/
theorem continueScrapingGo_bestEffort (scraper : Nat → List PullRequestInfo) (minReq : Int) :
    ∀ (fuel retry : Nat) (working : CrawledRepository) (counts : List Nat),
      ∃ w, (continueScrapingGo scraper minReq fuel retry working counts).result =
          { success := true, repository := some w, error := none, retry_count := 0 } ∧
        working.pull_requests.IsPrefix w.pull_requests
  | 0, retry, working, counts => ⟨working, rfl, List.prefix_refl _⟩
  | fuel + 1, retry, working, counts => by
      simp only [continueScrapingGo]
      by_cases h1 : meets_minimum_pr_requirement minReq working = true
      · rw [if_pos h1]
        exact ⟨working, rfl, List.prefix_refl _⟩
      · rw [if_neg h1]
        by_cases h2 : (prsNeeded
            (requiredThreshold (min minReq working.stats.closed_pull_requests))
            (closedPrsScraped working) == 0) = true
        · rw [if_pos h2]
          exact ⟨working, rfl, List.prefix_refl _⟩
        · rw [if_neg h2]
          by_cases h3 : ((filterNewPrs working (scraper (retry + 1))).length == 0 &&
              decide (retry + 1 ≥ 2)) = true
          · rw [if_pos h3]
            exact ⟨working, rfl, List.prefix_refl _⟩
          · rw [if_neg h3]
            rcases continueScrapingGo_bestEffort scraper minReq fuel (retry + 1)
              (mergeWorking working (filterNewPrs working (scraper (retry + 1))))
              (counts ++ [(filterNewPrs working (scraper (retry + 1))).length]) with
              ⟨w, hres, hpre⟩
            exact ⟨w, hres, (List.prefix_append _ _).trans hpre⟩

open EnhancedCrawler in
/-- C6 counterexample: with 5 closed PRs on hand, 20 available (quota 500 →
target 20, threshold 18), a first attempt that merges 5 new PRs and a second
attempt that merges none, `_continue_scraping_until_requirement_met` stops
after attempt 2 — a single zero-yield attempt, not two consecutive ones —
with three attempts still unused and the requirement still unmet. -/
theorem c6_retry_stop_counterexample :
    ((continue_scraping_until_requirement_met
        (fun k => if k = 1 then (List.range 5).map
          (fun i => { number := (i : Int) + 6, state := "closed", url := "" }) else [])
        MIN_PRS_REQUIRED
        { url := "https://g/o/r", stars := 10, language := ["Python"]
          stats := { closed_pull_requests := 20, pr_counts_available := true }
          pull_requests := (List.range 5).map
            fun i => { number := (i : Int) + 1, state := "closed", url := "" } }).exit =
      .zeroNewPrs) ∧
    ((continue_scraping_until_requirement_met
        (fun k => if k = 1 then (List.range 5).map
          (fun i => { number := (i : Int) + 6, state := "closed", url := "" }) else [])
        MIN_PRS_REQUIRED
        { url := "https://g/o/r", stars := 10, language := ["Python"]
          stats := { closed_pull_requests := 20, pr_counts_available := true }
          pull_requests := (List.range 5).map
            fun i => { number := (i : Int) + 1, state := "closed", url := "" } }).newCounts =
      [5, 0]) ∧
    ((continue_scraping_until_requirement_met
        (fun k => if k = 1 then (List.range 5).map
          (fun i => { number := (i : Int) + 6, state := "closed", url := "" }) else [])
        MIN_PRS_REQUIRED
        { url := "https://g/o/r", stars := 10, language := ["Python"]
          stats := { closed_pull_requests := 20, pr_counts_available := true }
          pull_requests := (List.range 5).map
            fun i => { number := (i : Int) + 1, state := "closed", url := "" } }).attemptsUsed =
      2) ∧
    2 < maxRetryAttempts ∧
    ((continue_scraping_until_requirement_met
        (fun k => if k = 1 then (List.range 5).map
          (fun i => { number := (i : Int) + 6, state := "closed", url := "" }) else [])
        MIN_PRS_REQUIRED
        { url := "https://g/o/r", stars := 10, language := ["Python"]
          stats := { closed_pull_requests := 20, pr_counts_available := true }
          pull_requests := (List.range 5).map
            fun i => { number := (i : Int) + 1, state := "closed", url := "" } }).result.repository.map
      (meets_minimum_pr_requirement MIN_PRS_REQUIRED)).getD true = false := by
  refine ⟨by decide, by decide, by decide, by decide, by decide⟩

open EnhancedCrawler in
/-- C6 (amended): the retry loop stops early when a scrape attempt from the
second one onward merges zero new PRs (a zero-yield **first** attempt alone
does not stop it, and no pair of consecutive zero attempts is required), or
when the five-attempt ceiling is reached; in every case it returns a
successful best-effort result whose PR list extends what was already
scraped; and a repository whose stats confirm zero closed PRs is turned away
by `_crawl_single_repository` before any scraping or retrying. -/
theorem c6_retry_loop_amended :
    (∀ (scraper : Nat → List PullRequestInfo) (minReq : Int) (repo : CrawledRepository),
      (continue_scraping_until_requirement_met scraper minReq repo).exit = .zeroNewPrs →
      2 ≤ (continue_scraping_until_requirement_met scraper minReq repo).attemptsUsed ∧
      (continue_scraping_until_requirement_met scraper minReq
        repo).newCounts.getLast? = some 0) ∧
    (∀ (scraper : Nat → List PullRequestInfo) (minReq : Int) (repo : CrawledRepository),
      (continue_scraping_until_requirement_met scraper minReq repo).attemptsUsed ≤
        maxRetryAttempts) ∧
    (∀ (scraper : Nat → List PullRequestInfo) (minReq : Int) (repo : CrawledRepository),
      ∃ w, (continue_scraping_until_requirement_met scraper minReq repo).result =
          { success := true, repository := some w, error := none, retry_count := 0 } ∧
        repo.pull_requests.IsPrefix w.pull_requests) ∧
    (∀ stats : RepositoryStats, stats.pr_counts_available = true →
      stats.closed_pull_requests = 0 →
      crawl_single_repository_gate none (some stats) =
        some { success := false, repository := none
               error := some "No closed PRs available", retry_count := 0 }) := by
  refine ⟨?_, ?_, ?_, ?_⟩
  · intro scraper minReq repo
    exact continueScrapingGo_zeroNew scraper minReq maxRetryAttempts 0 repo [] rfl
  · intro scraper minReq repo
    simpa using continueScrapingGo_attempts scraper minReq maxRetryAttempts 0 repo []
  · intro scraper minReq repo
    exact continueScrapingGo_bestEffort scraper minReq maxRetryAttempts 0 repo []
  · intro stats h1 h2
    simp [crawl_single_repository_gate, CRAWL_CLOSED_PRS, h1, h2]

open EnhancedCrawler in
/-- Witness for the amended C6 theorem: the counterexample trace satisfies
the zero-new stop characterization, and a zero-closed-PRs stats record is
turned away by the gate. -/
theorem c6_retry_loop_witness :
    ((continue_scraping_until_requirement_met
        (fun k => if k = 1 then (List.range 5).map
          (fun i => { number := (i : Int) + 6, state := "closed", url := "" }) else [])
        MIN_PRS_REQUIRED
        { url := "https://g/o/r", stars := 10, language := ["Python"]
          stats := { closed_pull_requests := 20, pr_counts_available := true }
          pull_requests := (List.range 5).map
            fun i => { number := (i : Int) + 1, state := "closed", url := "" } }).exit =
      .zeroNewPrs ∧
      2 ≤ (continue_scraping_until_requirement_met
        (fun k => if k = 1 then (List.range 5).map
          (fun i => { number := (i : Int) + 6, state := "closed", url := "" }) else [])
        MIN_PRS_REQUIRED
        { url := "https://g/o/r", stars := 10, language := ["Python"]
          stats := { closed_pull_requests := 20, pr_counts_available := true }
          pull_requests := (List.range 5).map
            fun i => { number := (i : Int) + 1, state := "closed", url := "" } }).attemptsUsed) ∧
    ((RepositoryStats.mk 0 0 0 0 0 40 40 0 true).pr_counts_available = true ∧
      (RepositoryStats.mk 0 0 0 0 0 40 40 0 true).closed_pull_requests = 0 ∧
      crawl_single_repository_gate none (some (RepositoryStats.mk 0 0 0 0 0 40 40 0 true)) =
        some { success := false, repository := none
               error := some "No closed PRs available", retry_count := 0 }) := by
  refine ⟨⟨by decide, ?_⟩, rfl, rfl, ?_⟩
  · exact (c6_retry_loop_amended.1
      (fun k => if k = 1 then (List.range 5).map
        (fun i => { number := (i : Int) + 6, state := "closed", url := "" }) else [])
      MIN_PRS_REQUIRED
      { url := "https://g/o/r", stars := 10, language := ["Python"]
        stats := { closed_pull_requests := 20, pr_counts_available := true }
        pull_requests := (List.range 5).map
          fun i => { number := (i : Int) + 1, state := "closed", url := "" } }
      (by decide)).1
  · exact c6_retry_loop_amended.2.2.2 (RepositoryStats.mk 0 0 0 0 0 40 40 0 true) rfl rfl

open AggressivePRScraper in
/-- A batch whose every future raised leaves the backoff variable and state
untouched, never early-returns, and counts one failure per future. -/
theorem processBatchItems_allExc (mode : UpdateMode) (pr_state : String)
    (limit : Option Int) :
    ∀ (outcomes : List (Int × PageOutcome)) (acc : BatchAcc),
      (∀ e ∈ outcomes, ∃ rl, e.2 = PageOutcome.exc rl) →
      (processBatchItems mode pr_state limit acc outcomes).2 = false ∧
      (processBatchItems mode pr_state limit acc outcomes).1.backoff_delay =
        acc.backoff_delay ∧
      (processBatchItems mode pr_state limit acc outcomes).1.batch_failures =
        acc.batch_failures + outcomes.length
  | [], acc, _ => by simp [processBatchItems]
  | e :: rest, acc, h => by
      obtain ⟨pn, o⟩ := e
      obtain ⟨rl, ho⟩ := h (pn, o) (List.mem_cons_self _ _)
      simp only at ho
      subst ho
      simp only [processBatchItems]
      cases rl <;>
      · rcases processBatchItems_allExc mode pr_state limit rest _
          (fun e he => h e (List.mem_cons_of_mem _ he)) with ⟨h1, h2, h3⟩
        refine ⟨h1, h2, ?_⟩
        rw [h3]
        simp
        omega

open AggressivePRScraper in
/-- With no (truthy) cap, result processing never takes the mid-batch
`return`. -/
theorem processBatchItems_noCap (mode : UpdateMode) (pr_state : String)
    (limit : Option Int) (hcap : capValue limit = none) :
    ∀ (outcomes : List (Int × PageOutcome)) (acc : BatchAcc),
      (processBatchItems mode pr_state limit acc outcomes).2 = false
  | [], acc => by simp [processBatchItems]
  | e :: rest, acc => by
      obtain ⟨pn, o⟩ := e
      cases o with
      | exc rl =>
          simp only [processBatchItems]
          cases rl <;> exact processBatchItems_noCap mode pr_state limit hcap rest _
      | urls us =>
          simp only [processBatchItems]
          by_cases hus : us.isEmpty
          · rw [if_pos hus]
            exact processBatchItems_noCap mode pr_state limit hcap rest _
          · rw [if_neg hus, hcap]
            exact processBatchItems_noCap mode pr_state limit hcap rest _

open AggressivePRScraper in
/-- With no cap and the backoff already at the base value, result processing
keeps it there (only the success branch writes it, and it writes 1). -/
theorem processBatchItems_backoffBase (mode : UpdateMode) (pr_state : String)
    (limit : Option Int) (hcap : capValue limit = none) :
    ∀ (outcomes : List (Int × PageOutcome)) (acc : BatchAcc),
      acc.backoff_delay = 1 →
      (processBatchItems mode pr_state limit acc outcomes).1.backoff_delay = 1
  | [], acc, hb => hb
  | e :: rest, acc, hb => by
      obtain ⟨pn, o⟩ := e
      cases o with
      | exc rl =>
          simp only [processBatchItems]
          cases rl <;> exact processBatchItems_backoffBase mode pr_state limit hcap rest _ hb
      | urls us =>
          simp only [processBatchItems]
          by_cases hus : us.isEmpty
          · rw [if_pos hus]
            exact processBatchItems_backoffBase mode pr_state limit hcap rest _ hb
          · rw [if_neg hus, hcap]
            exact processBatchItems_backoffBase mode pr_state limit hcap rest _ rfl

open AggressivePRScraper in
/-- With no cap, a batch containing a page with found URLs leaves the
backoff variable reset to the base value 1. -/
theorem processBatchItems_backoffReset (mode : UpdateMode) (pr_state : String)
    (limit : Option Int) (hcap : capValue limit = none) :
    ∀ (outcomes : List (Int × PageOutcome)) (acc : BatchAcc),
      (∃ e ∈ outcomes, ∃ us, e.2 = PageOutcome.urls us ∧ us ≠ []) →
      (processBatchItems mode pr_state limit acc outcomes).1.backoff_delay = 1
  | [], acc, h => by simp at h
  | e :: rest, acc, h => by
      obtain ⟨pn, o⟩ := e
      cases o with
      | exc rl =>
          have hrest : ∃ e ∈ rest, ∃ us, e.2 = PageOutcome.urls us ∧ us ≠ [] := by
            rcases h with ⟨e, he, us, hus, hne⟩
            rcases List.mem_cons.mp he with rfl | he2
            · simp at hus
            · exact ⟨e, he2, us, hus, hne⟩
          simp only [processBatchItems]
          cases rl <;>
            exact processBatchItems_backoffReset mode pr_state limit hcap rest _ hrest
      | urls us =>
          by_cases hus : us.isEmpty
          · have hrest : ∃ e ∈ rest, ∃ us, e.2 = PageOutcome.urls us ∧ us ≠ [] := by
              rcases h with ⟨e, he, us2, hus2, hne⟩
              rcases List.mem_cons.mp he with rfl | he2
              · have husnil : us = [] := by simpa using hus
                rw [husnil] at hus2
                obtain rfl : us2 = [] := by
                  simp only at hus2
                  injection hus2 with h2
                  exact h2.symm
                exact absurd rfl hne
              · exact ⟨e, he2, us2, hus2, hne⟩
            simp only [processBatchItems]
            rw [if_pos hus]
            exact processBatchItems_backoffReset mode pr_state limit hcap rest _ hrest
          · simp only [processBatchItems]
            rw [if_neg hus, hcap]
            exact processBatchItems_backoffBase mode pr_state limit hcap rest _ rfl

open AggressivePRScraper in
/-- The post-batch backoff block never sleeps without a rate-limit marker. -/
theorem batchBackoff_noRateLimit (bf b : Nat) (outcomes : List (Int × PageOutcome))
    (h : ∀ e ∈ outcomes, e.2.isRateLimitExc = false) :
    (batchBackoff bf b outcomes).2 = [] ∧
    (0 < bf → (batchBackoff bf b outcomes).1 = 1) ∧
    (bf = 0 → (batchBackoff bf b outcomes).1 = b) := by
  have hfilter : (outcomes.filter fun e => e.2.isRateLimitExc) = [] := by
    rw [List.filter_eq_nil_iff]
    intro e he
    simp [h e he]
  unfold batchBackoff
  rcases Nat.eq_zero_or_pos bf with rfl | hbf
  · simp
  · rw [if_pos hbf, hfilter]
    simp [hbf]
    omega

open AggressivePRScraper in
/-- The post-batch backoff block under at least one rate-limited future:
doubled-and-capped delay, slept once or twice. -/
theorem batchBackoff_rateLimited (bf b : Nat) (outcomes : List (Int × PageOutcome))
    (hbf : 0 < bf) (h : ∃ e ∈ outcomes, e.2 = PageOutcome.exc true) :
    (batchBackoff bf b outcomes).1 = min (b * 2) maxBackoff ∧
    ((batchBackoff bf b outcomes).2 = [min (b * 2) maxBackoff] ∨
      (batchBackoff bf b outcomes).2 = [min (b * 2) maxBackoff, min (b * 2) maxBackoff]) ∧
    (1 ≤ b → b ≤ maxBackoff → b ≤ min (b * 2) maxBackoff ∧ min (b * 2) maxBackoff ≤ maxBackoff) := by
  have hrate : 0 < (outcomes.filter fun e => e.2.isRateLimitExc).length := by
    rcases h with ⟨e, he, hexc⟩
    apply List.length_pos.mpr
    intro hnil
    have hmem : e ∈ outcomes.filter (fun e => e.2.isRateLimitExc) :=
      List.mem_filter.mpr ⟨he, by rw [hexc]; rfl⟩
    rw [hnil] at hmem
    simp at hmem
  unfold batchBackoff
  rw [if_pos hbf, if_pos hrate]
  refine ⟨rfl, ?_, ?_⟩
  · by_cases hheavy : 5 * (outcomes.filter fun e => e.2.isRateLimitExc).length ≥
      4 * outcomes.length
    · right
      simp [hheavy]
    · left
      simp [hheavy]
  · intro h1 h60
    constructor
    · have : b ≤ b * 2 := by omega
      exact le_min this h60
    · exact min_le_right _ _

open AggressivePRScraper in
/-- C9: the discovery backoff policy — an all-failure batch with a
rate-limit marker doubles the delay up to the 60-second cap and sleeps that
value (non-decreasing from any in-range delay); a batch with a found page
and no rate-limit marker resets the delay to the base 1 and sleeps nothing;
and no batch without a rate-limit marker ever sleeps. -/
theorem c9_backoff_monotonic :
    (∀ (mode : UpdateMode) (pr_state : String) (limit : Option Int) (acc : BatchAcc)
        (outcomes : List (Int × PageOutcome)),
      (∀ e ∈ outcomes, ∃ rl, e.2 = PageOutcome.exc rl) →
      (∃ e ∈ outcomes, e.2 = PageOutcome.exc true) →
      (processBatchItems mode pr_state limit acc outcomes).2 = false ∧
      (batchBackoff (processBatchItems mode pr_state limit acc outcomes).1.batch_failures
          (processBatchItems mode pr_state limit acc outcomes).1.backoff_delay outcomes).1 =
        min (acc.backoff_delay * 2) maxBackoff ∧
      ((batchBackoff (processBatchItems mode pr_state limit acc outcomes).1.batch_failures
          (processBatchItems mode pr_state limit acc outcomes).1.backoff_delay outcomes).2 =
        [min (acc.backoff_delay * 2) maxBackoff] ∨
       (batchBackoff (processBatchItems mode pr_state limit acc outcomes).1.batch_failures
          (processBatchItems mode pr_state limit acc outcomes).1.backoff_delay outcomes).2 =
        [min (acc.backoff_delay * 2) maxBackoff, min (acc.backoff_delay * 2) maxBackoff]) ∧
      (1 ≤ acc.backoff_delay → acc.backoff_delay ≤ maxBackoff →
        acc.backoff_delay ≤ min (acc.backoff_delay * 2) maxBackoff ∧
        min (acc.backoff_delay * 2) maxBackoff ≤ maxBackoff)) ∧
    (∀ (mode : UpdateMode) (pr_state : String) (limit : Option Int) (acc : BatchAcc)
        (outcomes : List (Int × PageOutcome)),
      capValue limit = none →
      (∃ e ∈ outcomes, ∃ us, e.2 = PageOutcome.urls us ∧ us ≠ []) →
      (∀ e ∈ outcomes, e.2.isRateLimitExc = false) →
      (processBatchItems mode pr_state limit acc outcomes).2 = false ∧
      (processBatchItems mode pr_state limit acc outcomes).1.backoff_delay = 1 ∧
      (batchBackoff (processBatchItems mode pr_state limit acc outcomes).1.batch_failures
          (processBatchItems mode pr_state limit acc outcomes).1.backoff_delay outcomes).1 = 1 ∧
      (batchBackoff (processBatchItems mode pr_state limit acc outcomes).1.batch_failures
          (processBatchItems mode pr_state limit acc outcomes).1.backoff_delay outcomes).2 = []) ∧
    (∀ (bf b : Nat) (outcomes : List (Int × PageOutcome)),
      (∀ e ∈ outcomes, e.2.isRateLimitExc = false) →
      (batchBackoff bf b outcomes).2 = []) := by
  refine ⟨?_, ?_, ?_⟩
  · intro mode pr_state limit acc outcomes hall hrl
    rcases processBatchItems_allExc mode pr_state limit outcomes acc hall with ⟨h1, h2, h3⟩
    have hbf : 0 < (processBatchItems mode pr_state limit acc outcomes).1.batch_failures := by
      rcases hrl with ⟨e, he, _⟩
      have : outcomes ≠ [] := by rintro rfl; simp at he
      have hlen : 0 < outcomes.length := List.length_pos.mpr this
      omega
    rcases batchBackoff_rateLimited
      (processBatchItems mode pr_state limit acc outcomes).1.batch_failures
      acc.backoff_delay outcomes hbf hrl with ⟨hb1, hb2, hb3⟩
    rw [h2]
    exact ⟨h1, hb1, hb2, hb3⟩
  · intro mode pr_state limit acc outcomes hcap hfound hnorl
    have h1 := processBatchItems_noCap mode pr_state limit hcap outcomes acc
    have h2 := processBatchItems_backoffReset mode pr_state limit hcap outcomes acc hfound
    rcases batchBackoff_noRateLimit
      (processBatchItems mode pr_state limit acc outcomes).1.batch_failures
      (processBatchItems mode pr_state limit acc outcomes).1.backoff_delay outcomes hnorl with
      ⟨hs, hpos, hzero⟩
    refine ⟨h1, h2, ?_, hs⟩
    rcases Nat.eq_zero_or_pos
      (processBatchItems mode pr_state limit acc outcomes).1.batch_failures with hz | hp
    · rw [hzero hz, h2]
    · exact hpos hp
  · intro bf b outcomes h
    exact (batchBackoff_noRateLimit bf b outcomes h).1

open AggressivePRScraper PRCheckpointManager in
/-- Witness for the C9 backoff theorem: a fully rate-limited batch from the
base delay, a successful batch, and a non-rate-limit failure batch. -/
theorem c9_backoff_monotonic_witness :
    ((∀ e ∈ [((1 : Int), PageOutcome.exc true)], ∃ rl, e.2 = PageOutcome.exc rl) ∧
      (∃ e ∈ [((1 : Int), PageOutcome.exc true)], e.2 = PageOutcome.exc true) ∧
      (batchBackoff (processBatchItems .unified "closed" none
          (BatchAcc.mk (create_initial_state "https://g/o/r" 9) 0 0 0 1 0 0 0)
          [((1 : Int), PageOutcome.exc true)]).1.batch_failures
        (processBatchItems .unified "closed" none
          (BatchAcc.mk (create_initial_state "https://g/o/r" 9) 0 0 0 1 0 0 0)
          [((1 : Int), PageOutcome.exc true)]).1.backoff_delay
        [((1 : Int), PageOutcome.exc true)]).1 = min (1 * 2) maxBackoff) ∧
    ((capValue (none : Option Int) = none) ∧
      (∃ e ∈ [((1 : Int), PageOutcome.urls ["u1"])],
        ∃ us, e.2 = PageOutcome.urls us ∧ us ≠ []) ∧
      (∀ e ∈ [((1 : Int), PageOutcome.urls ["u1"])], e.2.isRateLimitExc = false) ∧
      (processBatchItems .unified "closed" none
        (BatchAcc.mk (create_initial_state "https://g/o/r" 9) 0 0 0 7 0 0 0)
        [((1 : Int), PageOutcome.urls ["u1"])]).1.backoff_delay = 1) ∧
    ((∀ e ∈ [((1 : Int), PageOutcome.exc false)], e.2.isRateLimitExc = false) ∧
      (batchBackoff 1 7 [((1 : Int), PageOutcome.exc false)]).2 = []) := by
  refine ⟨⟨by decide, by decide, ?_⟩,
    ⟨rfl, ⟨((1 : Int), PageOutcome.urls ["u1"]), by simp, ["u1"], rfl, by simp⟩,
      by decide, ?_⟩, by decide, ?_⟩
  · exact (c9_backoff_monotonic.1 .unified "closed" none
      (BatchAcc.mk (create_initial_state "https://g/o/r" 9) 0 0 0 1 0 0 0)
      [((1 : Int), PageOutcome.exc true)] (by decide) (by decide)).2.1
  · exact (c9_backoff_monotonic.2.1 .unified "closed" none
      (BatchAcc.mk (create_initial_state "https://g/o/r" 9) 0 0 0 7 0 0 0)
      [((1 : Int), PageOutcome.urls ["u1"])] rfl
      ⟨((1 : Int), PageOutcome.urls ["u1"]), by simp, ["u1"], rfl, by simp⟩
      (by decide)).2.1
  · exact c9_backoff_monotonic.2.2 1 7 [((1 : Int), PageOutcome.exc false)] (by decide)

open AggressivePRScraper PRCheckpointManager in
/-- C10 at the failing input: discovery over pages that each yield one fresh
URL up to page 30, with a per-category cap of 5.  Under the legacy checkpoint
manager the cap works: one batch, found counter 5, 5 discovered URLs,
immediate mid-batch exit.  Under the unified cache manager
`_update_discovery_progress` never advances `closed_prs_found`, so
`total_found` stays 0, the cap check never fires, and the loop keeps
launching batches until the empty-page heuristic stops it with 30 discovered
URLs — six times the cap.  The no-cap exhaustion stop works in both modes:
three consecutive empty batches end discovery and raise the category's
completeness flag. -/
theorem c10_discovery_cap_bug :
    ((discover_pr_urls_parallel .checkpoint
        (fun p => if p ≤ 30 then PageOutcome.urls ["u" ++ toString p] else .urls [])
        (create_initial_state "https://g/o/r" 9) "closed" (some 5)).exit = .capMidBatch ∧
      (discover_pr_urls_parallel .checkpoint
        (fun p => if p ≤ 30 then PageOutcome.urls ["u" ++ toString p] else .urls [])
        (create_initial_state "https://g/o/r" 9) "closed"
        (some 5)).state.discovered_pr_urls.length = 5 ∧
      (discover_pr_urls_parallel .checkpoint
        (fun p => if p ≤ 30 then PageOutcome.urls ["u" ++ toString p] else .urls [])
        (create_initial_state "https://g/o/r" 9) "closed"
        (some 5)).state.closed_prs_found = 5 ∧
      (discover_pr_urls_parallel .checkpoint
        (fun p => if p ≤ 30 then PageOutcome.urls ["u" ++ toString p] else .urls [])
        (create_initial_state "https://g/o/r" 9) "closed" (some 5)).batchStarts = [1]) ∧
    ((discover_pr_urls_parallel .unified
        (fun p => if p ≤ 30 then PageOutcome.urls ["u" ++ toString p] else .urls [])
        (create_initial_state "https://g/o/r" 9) "closed" (some 5)).exit = .exhausted ∧
      (discover_pr_urls_parallel .unified
        (fun p => if p ≤ 30 then PageOutcome.urls ["u" ++ toString p] else .urls [])
        (create_initial_state "https://g/o/r" 9) "closed"
        (some 5)).state.discovered_pr_urls.length = 30 ∧
      (discover_pr_urls_parallel .unified
        (fun p => if p ≤ 30 then PageOutcome.urls ["u" ++ toString p] else .urls [])
        (create_initial_state "https://g/o/r" 9) "closed"
        (some 5)).state.closed_prs_found = 0 ∧
      (discover_pr_urls_parallel .unified
        (fun p => if p ≤ 30 then PageOutcome.urls ["u" ++ toString p] else .urls [])
        (create_initial_state "https://g/o/r" 9) "closed" (some 5)).batchStarts =
        [1, 11, 21, 31, 41, 51] ∧
      5 < (discover_pr_urls_parallel .unified
        (fun p => if p ≤ 30 then PageOutcome.urls ["u" ++ toString p] else .urls [])
        (create_initial_state "https://g/o/r" 9) "closed"
        (some 5)).state.discovered_pr_urls.length) ∧
    ((discover_pr_urls_parallel .unified (fun _ => PageOutcome.urls [])
        (create_initial_state "https://g/o/r" 9) "closed" none).exit = .exhausted ∧
      (discover_pr_urls_parallel .unified (fun _ => PageOutcome.urls [])
        (create_initial_state "https://g/o/r" 9) "closed"
        none).state.closed_pages_complete = true ∧
      (discover_pr_urls_parallel .unified (fun _ => PageOutcome.urls [])
        (create_initial_state "https://g/o/r" 9) "closed" none).batchStarts = [1, 11, 21] ∧
      (discover_pr_urls_parallel .checkpoint (fun _ => PageOutcome.urls [])
        (create_initial_state "https://g/o/r" 9) "closed"
        none).state.closed_pages_complete = true) := by
  refine ⟨⟨by decide, by decide, by decide, by decide⟩,
    ⟨by decide, by decide, by decide, by decide, by decide⟩,
    ⟨by decide, by decide, by decide, by decide⟩⟩

end GhCrawler
